import Mathlib

/-!
Verification of the vimouse input-translation engine (src/main.rs).

The engine state is the set of mutable statics of the program
(MOUSE_POSITION, MOUSE_SPEED, G_KEY_HELD, SCREEN_WIDTH, SCREEN_HEIGHT).
The hook callback is modelled as a pure function from the state and the
incoming event to the new state, the list of emitted side effects
(synthesized events, spawned scroll animators, process exit), and the
pass-through decision (some event = pass through, none = suppress),
mirroring the Option return value of the Rust callback.

Numeric note: f64 values are modelled as exact rationals.  Every constant
of the program (5.0, 40.0, 150.0, 20.0, 0.85, 0.5) and every intermediate
value reached in the concrete runs proved below is far from the decision
boundaries of the comparisons and truncations involved, so the exact
rational trace and the f64 trace coincide on those runs.
-/

namespace Vimouse

/-- SLOW_SPEED constant of src/main.rs. -/
def SLOW_SPEED : ℚ := 5

/-- FAST_SPEED constant of src/main.rs (the initial value of MOUSE_SPEED). -/
def FAST_SPEED : ℚ := 40

/-- ULTRA_FAST_SPEED constant of src/main.rs. -/
def ULTRA_FAST_SPEED : ℚ := 150

/-- SCROLL_INITIAL_VELOCITY constant of src/main.rs. -/
def SCROLL_INITIAL_VELOCITY : ℚ := 20

/-- SCROLL_DECELERATION constant of src/main.rs (0.85). -/
def SCROLL_DECELERATION : ℚ := 17 / 20

/-- SCROLL_MIN_VELOCITY constant of src/main.rs (0.5). -/
def SCROLL_MIN_VELOCITY : ℚ := 1 / 2

/-- The rdev keys the program distinguishes.  UnknownKey stands for every
key identity the callback does not name (its catch-all match arms). -/
inductive Key where
  | KeyH | KeyL | KeyJ | KeyK | KeyY | KeyU | KeyB | KeyN
  | KeyQ | KeyW | KeyE | KeyR | KeyA | KeyS | KeyD | KeyF
  | KeyZ | KeyX | KeyC | KeyV
  | Space | ControlLeft | ControlRight | CapsLock
  | Escape | ShiftLeft | ShiftRight | Alt
  | KeyG | KeyT | KeyI
  | UnknownKey
  deriving DecidableEq, Repr

/-- Mouse buttons used by the program. -/
inductive Button where
  | Left | Right
  deriving DecidableEq, Repr

/-- The rdev event types the program consumes or synthesizes. -/
inductive EventType where
  | MouseMove (x y : ℚ)
  | KeyPress (key : Key)
  | KeyRelease (key : Key)
  | ButtonPress (b : Button)
  | ButtonRelease (b : Button)
  | Wheel (delta_x delta_y : ℤ)
  | OtherEvent
  deriving DecidableEq, Repr

/-- Externally visible side effects of one callback invocation. -/
inductive Effect where
  /-- send(event) : simulate the event and sleep 5 ms. -/
  | send (e : EventType)
  /-- send_smooth_scroll(dx, dy) : spawn a scroll momentum animator. -/
  | smoothScroll (direction_x direction_y : ℚ)
  /-- std::process::exit(0). -/
  | exitProcess
  /-- spawn of the clickable-element printer thread (Key I). -/
  | printElements
  deriving DecidableEq, Repr

/-- The mutable statics of src/main.rs. -/
structure EngineState where
  /-- MOUSE_POSITION static. -/
  mousePosition : ℚ × ℚ
  /-- MOUSE_SPEED static. -/
  mouseSpeed : ℚ
  /-- G_KEY_HELD static: true means Scroll mode, false means Pointer mode. -/
  gKeyHeld : Bool
  /-- SCREEN_WIDTH static. -/
  screenWidth : ℚ
  /-- SCREEN_HEIGHT static. -/
  screenHeight : ℚ
  deriving DecidableEq, Repr

/-- MOVEMENT_MAP of src/main.rs: direction keys to movement vectors. -/
def MOVEMENT_MAP : Key → Option (ℚ × ℚ)
  | .KeyH => some (-1, 0)
  | .KeyL => some (1, 0)
  | .KeyJ => some (0, 1)
  | .KeyK => some (0, -1)
  | .KeyY => some (-1, -1)
  | .KeyU => some (1, -1)
  | .KeyB => some (-1, 1)
  | .KeyN => some (1, 1)
  | _ => none

/-- SCREEN_CELL_MAP of src/main.rs: grid keys to (column, row) cells of a
4-column by 3-row layout. -/
def SCREEN_CELL_MAP : Key → Option (ℚ × ℚ)
  | .KeyQ => some (0, 0)
  | .KeyW => some (1, 0)
  | .KeyE => some (2, 0)
  | .KeyR => some (3, 0)
  | .KeyA => some (0, 1)
  | .KeyS => some (1, 1)
  | .KeyD => some (2, 1)
  | .KeyF => some (3, 1)
  | .KeyZ => some (0, 2)
  | .KeyX => some (1, 2)
  | .KeyC => some (2, 2)
  | .KeyV => some (3, 2)
  | _ => none

/-- The grab callback of src/main.rs.  Returns the updated statics, the
side effects performed, and the returned Option (some = pass through,
none = suppress).  The Escape arm calls process::exit; it is modelled as
the exitProcess effect with the event suppressed. -/
def callback (s : EngineState) (event : EventType) :
    EngineState × List Effect × Option EventType :=
  match event with
  | .MouseMove x y => ({ s with mousePosition := (x, y) }, [], some (.MouseMove x y))
  | .KeyPress key =>
    match key with
    | .KeyH | .KeyL | .KeyK | .KeyJ | .KeyY | .KeyU | .KeyB | .KeyN =>
      if s.gKeyHeld then
        -- Scroll mode: only h, l, j, k scroll; other movement keys are ignored
        match key with
        | .KeyH => (s, [.smoothScroll (-1) 0], none)
        | .KeyL => (s, [.smoothScroll 1 0], none)
        | .KeyJ => (s, [.smoothScroll 0 (-1)], none)
        | .KeyK => (s, [.smoothScroll 0 1], none)
        | _ => (s, [], none)
      else
        -- Normal movement mode
        match MOVEMENT_MAP key with
        | some direction =>
          (s, [.send (.MouseMove (s.mousePosition.1 + direction.1 * s.mouseSpeed)
                                 (s.mousePosition.2 + direction.2 * s.mouseSpeed))],
           none)
        | none => (s, [], some event)
    | .Space => (s, [.send (.ButtonPress .Left)], none)
    | .ControlLeft | .ControlRight | .CapsLock =>
      (s, [.send (.ButtonPress .Right)], none)
    | .KeyQ | .KeyW | .KeyE | .KeyR | .KeyA | .KeyS
    | .KeyD | .KeyF | .KeyZ | .KeyX | .KeyC | .KeyV =>
      match SCREEN_CELL_MAP key with
      | some cell =>
        (s, [.send (.MouseMove (cell.1 * s.screenWidth / 4 + s.screenWidth / 8)
                               (cell.2 * s.screenHeight / 3 + s.screenHeight / 6))],
         none)
      | none => (s, [], some event)
    | .Escape => (s, [.exitProcess], none)
    | .ShiftLeft | .ShiftRight => ({ s with mouseSpeed := SLOW_SPEED }, [], some event)
    | .Alt => ({ s with mouseSpeed := ULTRA_FAST_SPEED }, [], some event)
    | .KeyG => ({ s with gKeyHeld := true }, [], none)
    | .KeyT => ({ s with gKeyHeld := !s.gKeyHeld }, [], none)
    | .KeyI => (s, [.printElements], none)
    | _ => (s, [], some event)
  | .KeyRelease key =>
    match key with
    | .Space => (s, [.send (.ButtonRelease .Left)], none)
    | .ControlLeft | .ControlRight | .CapsLock =>
      (s, [.send (.ButtonRelease .Right)], none)
    | .ShiftLeft | .ShiftRight | .Alt =>
      ({ s with mouseSpeed := FAST_SPEED }, [], some event)
    | .KeyG => ({ s with gKeyHeld := false }, [], none)
    | _ => (s, [], some event)
  | _ => (s, [], some event)

/-- The values of the mutable statics at program start (before main runs
its display-size query): MOUSE_POSITION = (0, 0), MOUSE_SPEED = FAST_SPEED,
G_KEY_HELD = false, screen extent (0, 0). -/
def initialState : EngineState :=
  { mousePosition := (0, 0)
    mouseSpeed := FAST_SPEED
    gKeyHeld := false
    screenWidth := 0
    screenHeight := 0 }

/-- Fold the callback over a list of input events, keeping the state. -/
def processEvents (s : EngineState) : List EventType → EngineState
  | [] => s
  | e :: es => processEvents (callback s e).1 es

/-- Velocity state of one scroll momentum animator (the two local f64
variables of the thread spawned by send_smooth_scroll). -/
structure ScrollState where
  velocity_x : ℚ
  velocity_y : ℚ
  deriving DecidableEq, Repr

/-- The Rust cast `v as i64` on a finite in-range value: truncation
toward zero. -/
def truncQ (x : ℚ) : ℤ := if 0 ≤ x then ⌊x⌋ else ⌈x⌉

/-- The initial animator velocity: direction × SCROLL_INITIAL_VELOCITY
on each axis. -/
def scrollInit (direction_x direction_y : ℚ) : ScrollState :=
  ⟨direction_x * SCROLL_INITIAL_VELOCITY, direction_y * SCROLL_INITIAL_VELOCITY⟩

/-- One iteration of the while-loop body of send_smooth_scroll: the list
of wheel deltas emitted this frame (empty or a singleton, mirroring the
conditional simulate call), and the decayed, threshold-snapped velocity.
The Rust locals delta_x, delta_y and the updated velocity_x, velocity_y
are inlined. -/
def scrollFrame (v : ScrollState) : List (ℤ × ℤ) × ScrollState :=
  ((if truncQ v.velocity_x ≠ 0 ∨ truncQ v.velocity_y ≠ 0
      then [(truncQ v.velocity_x, truncQ v.velocity_y)] else []),
   ⟨if |v.velocity_x * SCROLL_DECELERATION| < SCROLL_MIN_VELOCITY then 0
       else v.velocity_x * SCROLL_DECELERATION,
    if |v.velocity_y * SCROLL_DECELERATION| < SCROLL_MIN_VELOCITY then 0
       else v.velocity_y * SCROLL_DECELERATION⟩)

/-- The while-loop of send_smooth_scroll.  A fuel argument makes the
recursion structural; the Rust loop has none, and the theorems below show
the guard fails strictly before the fuel runs out on the runs considered.
Returns the emitted wheel deltas in order, the final velocity, and the
number of loop iterations executed. -/
def scrollLoop : Nat → ScrollState → List (ℤ × ℤ) × ScrollState × Nat
  | 0, v => ([], v, 0)
  | Nat.succ fuel, v =>
    if SCROLL_MIN_VELOCITY < |v.velocity_x| ∨ SCROLL_MIN_VELOCITY < |v.velocity_y|
    then
      ((scrollFrame v).1 ++ (scrollLoop fuel (scrollFrame v).2).1,
       (scrollLoop fuel (scrollFrame v).2).2.1,
       (scrollLoop fuel (scrollFrame v).2).2.2 + 1)
    else ([], v, 0)

/-- send_smooth_scroll of src/main.rs: the full animator run that the
spawned thread performs, modelled with fuel 100. -/
def send_smooth_scroll (direction_x direction_y : ℚ) :
    List (ℤ × ℤ) × ScrollState × Nat :=
  scrollLoop 100 (scrollInit direction_x direction_y)

/-- Magnitude of an emitted wheel delta.  The animator only ever emits
deltas with at least one component zero, where this sum is the euclidean
magnitude of the delta vector. -/
def wheelMag (d : ℤ × ℤ) : ℤ := |d.1| + |d.2|

/-- Whether an event is a press or release of a speed-modifier key
(Shift for slow, Alt for fast); exactly these events reach the arms of
the callback that assign MOUSE_SPEED. -/
def isSpeedEvent : EventType → Bool
  | .KeyPress .ShiftLeft | .KeyPress .ShiftRight | .KeyPress .Alt
  | .KeyRelease .ShiftLeft | .KeyRelease .ShiftRight | .KeyRelease .Alt => true
  | _ => false

/-- A concrete pointer-mode state: cursor estimate (100, 100), speed 40,
pointer mode, 1200 by 900 screen. -/
def pointerState : EngineState :=
  { mousePosition := (100, 100)
    mouseSpeed := 40
    gKeyHeld := false
    screenWidth := 1200
    screenHeight := 900 }

/-- A concrete state with the 1200 by 900 screen extent of claim C2. -/
def gridState : EngineState :=
  { mousePosition := (0, 0)
    mouseSpeed := 40
    gKeyHeld := false
    screenWidth := 1200
    screenHeight := 900 }

/-- A concrete scroll-mode state (G key held). -/
def scrollModeState : EngineState :=
  { mousePosition := (0, 0)
    mouseSpeed := 40
    gKeyHeld := true
    screenWidth := 1200
    screenHeight := 900 }

/-! Evaluation lemmas for concrete animator runs.  The kernel cannot
reduce rational arithmetic, so the loop is evaluated by rewriting one
frame at a time, with the arithmetic side conditions settled by
norm_num. -/

lemma scrollFrame_eval (a b a2 b2 a3 b3 : ℚ) (dx dy : ℤ) (ds : List (ℤ × ℤ))
    (hdx : truncQ a = dx) (hdy : truncQ b = dy)
    (hds : (if dx ≠ 0 ∨ dy ≠ 0 then [(dx, dy)] else []) = ds)
    (ha2 : a * SCROLL_DECELERATION = a2) (hb2 : b * SCROLL_DECELERATION = b2)
    (ha3 : (if |a2| < SCROLL_MIN_VELOCITY then (0 : ℚ) else a2) = a3)
    (hb3 : (if |b2| < SCROLL_MIN_VELOCITY then (0 : ℚ) else b2) = b3) :
    scrollFrame ⟨a, b⟩ = (ds, ⟨a3, b3⟩) := by
  subst ha2 hb2 ha3 hb3 hdx hdy hds
  rfl

lemma scrollLoop_step (n m : Nat) (a b a3 b3 : ℚ) (ds : List (ℤ × ℤ))
    (hn : n = m + 1)
    (hg : SCROLL_MIN_VELOCITY < |a| ∨ SCROLL_MIN_VELOCITY < |b|)
    (hf : scrollFrame ⟨a, b⟩ = (ds, ⟨a3, b3⟩)) :
    scrollLoop n ⟨a, b⟩ =
      (ds ++ (scrollLoop m ⟨a3, b3⟩).1,
       (scrollLoop m ⟨a3, b3⟩).2.1,
       (scrollLoop m ⟨a3, b3⟩).2.2 + 1) := by
  subst hn
  rw [scrollLoop]
  rw [if_pos hg, hf]

lemma scrollLoop_halt (fuel : Nat) (a b : ℚ)
    (hga : |a| ≤ SCROLL_MIN_VELOCITY) (hgb : |b| ≤ SCROLL_MIN_VELOCITY) :
    scrollLoop fuel ⟨a, b⟩ = ([], ⟨a, b⟩, 0) := by
  cases fuel with
  | zero => rfl
  | succ n =>
    rw [scrollLoop]
    rw [if_neg]
    push_neg
    exact ⟨hga, hgb⟩

lemma scrollRun_pos_x :
    scrollLoop 100 ⟨20, 0⟩ = ([(20, 0), (17, 0), (14, 0), (12, 0), (10, 0), (8, 0), (7, 0), (6, 0), (5, 0), (4, 0), (3, 0), (3, 0), (2, 0), (2, 0), (2, 0), (1, 0), (1, 0), (1, 0), (1, 0)], ⟨0, 0⟩, 23) := by
  have f0 : scrollFrame ⟨20, 0⟩ = ([(20, 0)], ⟨17, 0⟩) :=
    scrollFrame_eval 20 0 17 0 17 0 20 0 [(20, 0)]
      (by norm_num [truncQ, Int.floor_eq_iff, Int.ceil_eq_iff])
      (by norm_num [truncQ, Int.floor_eq_iff, Int.ceil_eq_iff])
      (by norm_num)
      (by norm_num [SCROLL_DECELERATION])
      (by norm_num [SCROLL_DECELERATION])
      (by norm_num [SCROLL_MIN_VELOCITY, abs_of_nonneg, abs_of_nonpos])
      (by norm_num [SCROLL_MIN_VELOCITY, abs_of_nonneg, abs_of_nonpos])
  have f1 : scrollFrame ⟨17, 0⟩ = ([(17, 0)], ⟨(289/20), 0⟩) :=
    scrollFrame_eval 17 0 (289/20) 0 (289/20) 0 17 0 [(17, 0)]
      (by norm_num [truncQ, Int.floor_eq_iff, Int.ceil_eq_iff])
      (by norm_num [truncQ, Int.floor_eq_iff, Int.ceil_eq_iff])
      (by norm_num)
      (by norm_num [SCROLL_DECELERATION])
      (by norm_num [SCROLL_DECELERATION])
      (by norm_num [SCROLL_MIN_VELOCITY, abs_of_nonneg, abs_of_nonpos])
      (by norm_num [SCROLL_MIN_VELOCITY, abs_of_nonneg, abs_of_nonpos])
  have f2 : scrollFrame ⟨(289/20), 0⟩ = ([(14, 0)], ⟨(4913/400), 0⟩) :=
    scrollFrame_eval (289/20) 0 (4913/400) 0 (4913/400) 0 14 0 [(14, 0)]
      (by norm_num [truncQ, Int.floor_eq_iff, Int.ceil_eq_iff])
      (by norm_num [truncQ, Int.floor_eq_iff, Int.ceil_eq_iff])
      (by norm_num)
      (by norm_num [SCROLL_DECELERATION])
      (by norm_num [SCROLL_DECELERATION])
      (by norm_num [SCROLL_MIN_VELOCITY, abs_of_nonneg, abs_of_nonpos])
      (by norm_num [SCROLL_MIN_VELOCITY, abs_of_nonneg, abs_of_nonpos])
  have f3 : scrollFrame ⟨(4913/400), 0⟩ = ([(12, 0)], ⟨(83521/8000), 0⟩) :=
    scrollFrame_eval (4913/400) 0 (83521/8000) 0 (83521/8000) 0 12 0 [(12, 0)]
      (by norm_num [truncQ, Int.floor_eq_iff, Int.ceil_eq_iff])
      (by norm_num [truncQ, Int.floor_eq_iff, Int.ceil_eq_iff])
      (by norm_num)
      (by norm_num [SCROLL_DECELERATION])
      (by norm_num [SCROLL_DECELERATION])
      (by norm_num [SCROLL_MIN_VELOCITY, abs_of_nonneg, abs_of_nonpos])
      (by norm_num [SCROLL_MIN_VELOCITY, abs_of_nonneg, abs_of_nonpos])
  have f4 : scrollFrame ⟨(83521/8000), 0⟩ = ([(10, 0)], ⟨(1419857/160000), 0⟩) :=
    scrollFrame_eval (83521/8000) 0 (1419857/160000) 0 (1419857/160000) 0 10 0 [(10, 0)]
      (by norm_num [truncQ, Int.floor_eq_iff, Int.ceil_eq_iff])
      (by norm_num [truncQ, Int.floor_eq_iff, Int.ceil_eq_iff])
      (by norm_num)
      (by norm_num [SCROLL_DECELERATION])
      (by norm_num [SCROLL_DECELERATION])
      (by norm_num [SCROLL_MIN_VELOCITY, abs_of_nonneg, abs_of_nonpos])
      (by norm_num [SCROLL_MIN_VELOCITY, abs_of_nonneg, abs_of_nonpos])
  have f5 : scrollFrame ⟨(1419857/160000), 0⟩ = ([(8, 0)], ⟨(24137569/3200000), 0⟩) :=
    scrollFrame_eval (1419857/160000) 0 (24137569/3200000) 0 (24137569/3200000) 0 8 0 [(8, 0)]
      (by norm_num [truncQ, Int.floor_eq_iff, Int.ceil_eq_iff])
      (by norm_num [truncQ, Int.floor_eq_iff, Int.ceil_eq_iff])
      (by norm_num)
      (by norm_num [SCROLL_DECELERATION])
      (by norm_num [SCROLL_DECELERATION])
      (by norm_num [SCROLL_MIN_VELOCITY, abs_of_nonneg, abs_of_nonpos])
      (by norm_num [SCROLL_MIN_VELOCITY, abs_of_nonneg, abs_of_nonpos])
  have f6 : scrollFrame ⟨(24137569/3200000), 0⟩ = ([(7, 0)], ⟨(410338673/64000000), 0⟩) :=
    scrollFrame_eval (24137569/3200000) 0 (410338673/64000000) 0 (410338673/64000000) 0 7 0 [(7, 0)]
      (by norm_num [truncQ, Int.floor_eq_iff, Int.ceil_eq_iff])
      (by norm_num [truncQ, Int.floor_eq_iff, Int.ceil_eq_iff])
      (by norm_num)
      (by norm_num [SCROLL_DECELERATION])
      (by norm_num [SCROLL_DECELERATION])
      (by norm_num [SCROLL_MIN_VELOCITY, abs_of_nonneg, abs_of_nonpos])
      (by norm_num [SCROLL_MIN_VELOCITY, abs_of_nonneg, abs_of_nonpos])
  have f7 : scrollFrame ⟨(410338673/64000000), 0⟩ = ([(6, 0)], ⟨(6975757441/1280000000), 0⟩) :=
    scrollFrame_eval (410338673/64000000) 0 (6975757441/1280000000) 0 (6975757441/1280000000) 0 6 0 [(6, 0)]
      (by norm_num [truncQ, Int.floor_eq_iff, Int.ceil_eq_iff])
      (by norm_num [truncQ, Int.floor_eq_iff, Int.ceil_eq_iff])
      (by norm_num)
      (by norm_num [SCROLL_DECELERATION])
      (by norm_num [SCROLL_DECELERATION])
      (by norm_num [SCROLL_MIN_VELOCITY, abs_of_nonneg, abs_of_nonpos])
      (by norm_num [SCROLL_MIN_VELOCITY, abs_of_nonneg, abs_of_nonpos])
  have f8 : scrollFrame ⟨(6975757441/1280000000), 0⟩ = ([(5, 0)], ⟨(118587876497/25600000000), 0⟩) :=
    scrollFrame_eval (6975757441/1280000000) 0 (118587876497/25600000000) 0 (118587876497/25600000000) 0 5 0 [(5, 0)]
      (by norm_num [truncQ, Int.floor_eq_iff, Int.ceil_eq_iff])
      (by norm_num [truncQ, Int.floor_eq_iff, Int.ceil_eq_iff])
      (by norm_num)
      (by norm_num [SCROLL_DECELERATION])
      (by norm_num [SCROLL_DECELERATION])
      (by norm_num [SCROLL_MIN_VELOCITY, abs_of_nonneg, abs_of_nonpos])
      (by norm_num [SCROLL_MIN_VELOCITY, abs_of_nonneg, abs_of_nonpos])
  have f9 : scrollFrame ⟨(118587876497/25600000000), 0⟩ = ([(4, 0)], ⟨(2015993900449/512000000000), 0⟩) :=
    scrollFrame_eval (118587876497/25600000000) 0 (2015993900449/512000000000) 0 (2015993900449/512000000000) 0 4 0 [(4, 0)]
      (by norm_num [truncQ, Int.floor_eq_iff, Int.ceil_eq_iff])
      (by norm_num [truncQ, Int.floor_eq_iff, Int.ceil_eq_iff])
      (by norm_num)
      (by norm_num [SCROLL_DECELERATION])
      (by norm_num [SCROLL_DECELERATION])
      (by norm_num [SCROLL_MIN_VELOCITY, abs_of_nonneg, abs_of_nonpos])
      (by norm_num [SCROLL_MIN_VELOCITY, abs_of_nonneg, abs_of_nonpos])
  have f10 : scrollFrame ⟨(2015993900449/512000000000), 0⟩ = ([(3, 0)], ⟨(34271896307633/10240000000000), 0⟩) :=
    scrollFrame_eval (2015993900449/512000000000) 0 (34271896307633/10240000000000) 0 (34271896307633/10240000000000) 0 3 0 [(3, 0)]
      (by norm_num [truncQ, Int.floor_eq_iff, Int.ceil_eq_iff])
      (by norm_num [truncQ, Int.floor_eq_iff, Int.ceil_eq_iff])
      (by norm_num)
      (by norm_num [SCROLL_DECELERATION])
      (by norm_num [SCROLL_DECELERATION])
      (by norm_num [SCROLL_MIN_VELOCITY, abs_of_nonneg, abs_of_nonpos])
      (by norm_num [SCROLL_MIN_VELOCITY, abs_of_nonneg, abs_of_nonpos])
  have f11 : scrollFrame ⟨(34271896307633/10240000000000), 0⟩ = ([(3, 0)], ⟨(582622237229761/204800000000000), 0⟩) :=
    scrollFrame_eval (34271896307633/10240000000000) 0 (582622237229761/204800000000000) 0 (582622237229761/204800000000000) 0 3 0 [(3, 0)]
      (by norm_num [truncQ, Int.floor_eq_iff, Int.ceil_eq_iff])
      (by norm_num [truncQ, Int.floor_eq_iff, Int.ceil_eq_iff])
      (by norm_num)
      (by norm_num [SCROLL_DECELERATION])
      (by norm_num [SCROLL_DECELERATION])
      (by norm_num [SCROLL_MIN_VELOCITY, abs_of_nonneg, abs_of_nonpos])
      (by norm_num [SCROLL_MIN_VELOCITY, abs_of_nonneg, abs_of_nonpos])
  have f12 : scrollFrame ⟨(582622237229761/204800000000000), 0⟩ = ([(2, 0)], ⟨(9904578032905937/4096000000000000), 0⟩) :=
    scrollFrame_eval (582622237229761/204800000000000) 0 (9904578032905937/4096000000000000) 0 (9904578032905937/4096000000000000) 0 2 0 [(2, 0)]
      (by norm_num [truncQ, Int.floor_eq_iff, Int.ceil_eq_iff])
      (by norm_num [truncQ, Int.floor_eq_iff, Int.ceil_eq_iff])
      (by norm_num)
      (by norm_num [SCROLL_DECELERATION])
      (by norm_num [SCROLL_DECELERATION])
      (by norm_num [SCROLL_MIN_VELOCITY, abs_of_nonneg, abs_of_nonpos])
      (by norm_num [SCROLL_MIN_VELOCITY, abs_of_nonneg, abs_of_nonpos])
  have f13 : scrollFrame ⟨(9904578032905937/4096000000000000), 0⟩ = ([(2, 0)], ⟨(168377826559400929/81920000000000000), 0⟩) :=
    scrollFrame_eval (9904578032905937/4096000000000000) 0 (168377826559400929/81920000000000000) 0 (168377826559400929/81920000000000000) 0 2 0 [(2, 0)]
      (by norm_num [truncQ, Int.floor_eq_iff, Int.ceil_eq_iff])
      (by norm_num [truncQ, Int.floor_eq_iff, Int.ceil_eq_iff])
      (by norm_num)
      (by norm_num [SCROLL_DECELERATION])
      (by norm_num [SCROLL_DECELERATION])
      (by norm_num [SCROLL_MIN_VELOCITY, abs_of_nonneg, abs_of_nonpos])
      (by norm_num [SCROLL_MIN_VELOCITY, abs_of_nonneg, abs_of_nonpos])
  have f14 : scrollFrame ⟨(168377826559400929/81920000000000000), 0⟩ = ([(2, 0)], ⟨(2862423051509815793/1638400000000000000), 0⟩) :=
    scrollFrame_eval (168377826559400929/81920000000000000) 0 (2862423051509815793/1638400000000000000) 0 (2862423051509815793/1638400000000000000) 0 2 0 [(2, 0)]
      (by norm_num [truncQ, Int.floor_eq_iff, Int.ceil_eq_iff])
      (by norm_num [truncQ, Int.floor_eq_iff, Int.ceil_eq_iff])
      (by norm_num)
      (by norm_num [SCROLL_DECELERATION])
      (by norm_num [SCROLL_DECELERATION])
      (by norm_num [SCROLL_MIN_VELOCITY, abs_of_nonneg, abs_of_nonpos])
      (by norm_num [SCROLL_MIN_VELOCITY, abs_of_nonneg, abs_of_nonpos])
  have f15 : scrollFrame ⟨(2862423051509815793/1638400000000000000), 0⟩ = ([(1, 0)], ⟨(48661191875666868481/32768000000000000000), 0⟩) :=
    scrollFrame_eval (2862423051509815793/1638400000000000000) 0 (48661191875666868481/32768000000000000000) 0 (48661191875666868481/32768000000000000000) 0 1 0 [(1, 0)]
      (by norm_num [truncQ, Int.floor_eq_iff, Int.ceil_eq_iff])
      (by norm_num [truncQ, Int.floor_eq_iff, Int.ceil_eq_iff])
      (by norm_num)
      (by norm_num [SCROLL_DECELERATION])
      (by norm_num [SCROLL_DECELERATION])
      (by norm_num [SCROLL_MIN_VELOCITY, abs_of_nonneg, abs_of_nonpos])
      (by norm_num [SCROLL_MIN_VELOCITY, abs_of_nonneg, abs_of_nonpos])
  have f16 : scrollFrame ⟨(48661191875666868481/32768000000000000000), 0⟩ = ([(1, 0)], ⟨(827240261886336764177/655360000000000000000), 0⟩) :=
    scrollFrame_eval (48661191875666868481/32768000000000000000) 0 (827240261886336764177/655360000000000000000) 0 (827240261886336764177/655360000000000000000) 0 1 0 [(1, 0)]
      (by norm_num [truncQ, Int.floor_eq_iff, Int.ceil_eq_iff])
      (by norm_num [truncQ, Int.floor_eq_iff, Int.ceil_eq_iff])
      (by norm_num)
      (by norm_num [SCROLL_DECELERATION])
      (by norm_num [SCROLL_DECELERATION])
      (by norm_num [SCROLL_MIN_VELOCITY, abs_of_nonneg, abs_of_nonpos])
      (by norm_num [SCROLL_MIN_VELOCITY, abs_of_nonneg, abs_of_nonpos])
  have f17 : scrollFrame ⟨(827240261886336764177/655360000000000000000), 0⟩ = ([(1, 0)], ⟨(14063084452067724991009/13107200000000000000000), 0⟩) :=
    scrollFrame_eval (827240261886336764177/655360000000000000000) 0 (14063084452067724991009/13107200000000000000000) 0 (14063084452067724991009/13107200000000000000000) 0 1 0 [(1, 0)]
      (by norm_num [truncQ, Int.floor_eq_iff, Int.ceil_eq_iff])
      (by norm_num [truncQ, Int.floor_eq_iff, Int.ceil_eq_iff])
      (by norm_num)
      (by norm_num [SCROLL_DECELERATION])
      (by norm_num [SCROLL_DECELERATION])
      (by norm_num [SCROLL_MIN_VELOCITY, abs_of_nonneg, abs_of_nonpos])
      (by norm_num [SCROLL_MIN_VELOCITY, abs_of_nonneg, abs_of_nonpos])
  have f18 : scrollFrame ⟨(14063084452067724991009/13107200000000000000000), 0⟩ = ([(1, 0)], ⟨(239072435685151324847153/262144000000000000000000), 0⟩) :=
    scrollFrame_eval (14063084452067724991009/13107200000000000000000) 0 (239072435685151324847153/262144000000000000000000) 0 (239072435685151324847153/262144000000000000000000) 0 1 0 [(1, 0)]
      (by norm_num [truncQ, Int.floor_eq_iff, Int.ceil_eq_iff])
      (by norm_num [truncQ, Int.floor_eq_iff, Int.ceil_eq_iff])
      (by norm_num)
      (by norm_num [SCROLL_DECELERATION])
      (by norm_num [SCROLL_DECELERATION])
      (by norm_num [SCROLL_MIN_VELOCITY, abs_of_nonneg, abs_of_nonpos])
      (by norm_num [SCROLL_MIN_VELOCITY, abs_of_nonneg, abs_of_nonpos])
  have f19 : scrollFrame ⟨(239072435685151324847153/262144000000000000000000), 0⟩ = ([], ⟨(4064231406647572522401601/5242880000000000000000000), 0⟩) :=
    scrollFrame_eval (239072435685151324847153/262144000000000000000000) 0 (4064231406647572522401601/5242880000000000000000000) 0 (4064231406647572522401601/5242880000000000000000000) 0 0 0 []
      (by norm_num [truncQ, Int.floor_eq_iff, Int.ceil_eq_iff])
      (by norm_num [truncQ, Int.floor_eq_iff, Int.ceil_eq_iff])
      (by norm_num)
      (by norm_num [SCROLL_DECELERATION])
      (by norm_num [SCROLL_DECELERATION])
      (by norm_num [SCROLL_MIN_VELOCITY, abs_of_nonneg, abs_of_nonpos])
      (by norm_num [SCROLL_MIN_VELOCITY, abs_of_nonneg, abs_of_nonpos])
  have f20 : scrollFrame ⟨(4064231406647572522401601/5242880000000000000000000), 0⟩ = ([], ⟨(69091933913008732880827217/104857600000000000000000000), 0⟩) :=
    scrollFrame_eval (4064231406647572522401601/5242880000000000000000000) 0 (69091933913008732880827217/104857600000000000000000000) 0 (69091933913008732880827217/104857600000000000000000000) 0 0 0 []
      (by norm_num [truncQ, Int.floor_eq_iff, Int.ceil_eq_iff])
      (by norm_num [truncQ, Int.floor_eq_iff, Int.ceil_eq_iff])
      (by norm_num)
      (by norm_num [SCROLL_DECELERATION])
      (by norm_num [SCROLL_DECELERATION])
      (by norm_num [SCROLL_MIN_VELOCITY, abs_of_nonneg, abs_of_nonpos])
      (by norm_num [SCROLL_MIN_VELOCITY, abs_of_nonneg, abs_of_nonpos])
  have f21 : scrollFrame ⟨(69091933913008732880827217/104857600000000000000000000), 0⟩ = ([], ⟨(1174562876521148458974062689/2097152000000000000000000000), 0⟩) :=
    scrollFrame_eval (69091933913008732880827217/104857600000000000000000000) 0 (1174562876521148458974062689/2097152000000000000000000000) 0 (1174562876521148458974062689/2097152000000000000000000000) 0 0 0 []
      (by norm_num [truncQ, Int.floor_eq_iff, Int.ceil_eq_iff])
      (by norm_num [truncQ, Int.floor_eq_iff, Int.ceil_eq_iff])
      (by norm_num)
      (by norm_num [SCROLL_DECELERATION])
      (by norm_num [SCROLL_DECELERATION])
      (by norm_num [SCROLL_MIN_VELOCITY, abs_of_nonneg, abs_of_nonpos])
      (by norm_num [SCROLL_MIN_VELOCITY, abs_of_nonneg, abs_of_nonpos])
  have f22 : scrollFrame ⟨(1174562876521148458974062689/2097152000000000000000000000), 0⟩ = ([], ⟨0, 0⟩) :=
    scrollFrame_eval (1174562876521148458974062689/2097152000000000000000000000) 0 (19967568900859523802559065713/41943040000000000000000000000) 0 0 0 0 0 []
      (by norm_num [truncQ, Int.floor_eq_iff, Int.ceil_eq_iff])
      (by norm_num [truncQ, Int.floor_eq_iff, Int.ceil_eq_iff])
      (by norm_num)
      (by norm_num [SCROLL_DECELERATION])
      (by norm_num [SCROLL_DECELERATION])
      (by norm_num [SCROLL_MIN_VELOCITY, abs_of_nonneg, abs_of_nonpos])
      (by norm_num [SCROLL_MIN_VELOCITY, abs_of_nonneg, abs_of_nonpos])
  have g77 : scrollLoop 77 ⟨0, 0⟩ = ([], ⟨0, 0⟩, 0) :=
    scrollLoop_halt 77 0 0 (by norm_num [SCROLL_MIN_VELOCITY])
      (by norm_num [SCROLL_MIN_VELOCITY])
  have g78 : scrollLoop 78 ⟨(1174562876521148458974062689/2097152000000000000000000000), 0⟩ = ([], ⟨0, 0⟩, 1) := by
    rw [scrollLoop_step 78 77 (1174562876521148458974062689/2097152000000000000000000000) 0 0 0 []
      (by norm_num)
      (by norm_num [SCROLL_MIN_VELOCITY, abs_of_nonneg, abs_of_nonpos]) f22, g77]
    simp
  have g79 : scrollLoop 79 ⟨(69091933913008732880827217/104857600000000000000000000), 0⟩ = ([], ⟨0, 0⟩, 2) := by
    rw [scrollLoop_step 79 78 (69091933913008732880827217/104857600000000000000000000) 0 (1174562876521148458974062689/2097152000000000000000000000) 0 []
      (by norm_num)
      (by norm_num [SCROLL_MIN_VELOCITY, abs_of_nonneg, abs_of_nonpos]) f21, g78]
    simp
  have g80 : scrollLoop 80 ⟨(4064231406647572522401601/5242880000000000000000000), 0⟩ = ([], ⟨0, 0⟩, 3) := by
    rw [scrollLoop_step 80 79 (4064231406647572522401601/5242880000000000000000000) 0 (69091933913008732880827217/104857600000000000000000000) 0 []
      (by norm_num)
      (by norm_num [SCROLL_MIN_VELOCITY, abs_of_nonneg, abs_of_nonpos]) f20, g79]
    simp
  have g81 : scrollLoop 81 ⟨(239072435685151324847153/262144000000000000000000), 0⟩ = ([], ⟨0, 0⟩, 4) := by
    rw [scrollLoop_step 81 80 (239072435685151324847153/262144000000000000000000) 0 (4064231406647572522401601/5242880000000000000000000) 0 []
      (by norm_num)
      (by norm_num [SCROLL_MIN_VELOCITY, abs_of_nonneg, abs_of_nonpos]) f19, g80]
    simp
  have g82 : scrollLoop 82 ⟨(14063084452067724991009/13107200000000000000000), 0⟩ = ([(1, 0)], ⟨0, 0⟩, 5) := by
    rw [scrollLoop_step 82 81 (14063084452067724991009/13107200000000000000000) 0 (239072435685151324847153/262144000000000000000000) 0 [(1, 0)]
      (by norm_num)
      (by norm_num [SCROLL_MIN_VELOCITY, abs_of_nonneg, abs_of_nonpos]) f18, g81]
    simp
  have g83 : scrollLoop 83 ⟨(827240261886336764177/655360000000000000000), 0⟩ = ([(1, 0), (1, 0)], ⟨0, 0⟩, 6) := by
    rw [scrollLoop_step 83 82 (827240261886336764177/655360000000000000000) 0 (14063084452067724991009/13107200000000000000000) 0 [(1, 0)]
      (by norm_num)
      (by norm_num [SCROLL_MIN_VELOCITY, abs_of_nonneg, abs_of_nonpos]) f17, g82]
    simp
  have g84 : scrollLoop 84 ⟨(48661191875666868481/32768000000000000000), 0⟩ = ([(1, 0), (1, 0), (1, 0)], ⟨0, 0⟩, 7) := by
    rw [scrollLoop_step 84 83 (48661191875666868481/32768000000000000000) 0 (827240261886336764177/655360000000000000000) 0 [(1, 0)]
      (by norm_num)
      (by norm_num [SCROLL_MIN_VELOCITY, abs_of_nonneg, abs_of_nonpos]) f16, g83]
    simp
  have g85 : scrollLoop 85 ⟨(2862423051509815793/1638400000000000000), 0⟩ = ([(1, 0), (1, 0), (1, 0), (1, 0)], ⟨0, 0⟩, 8) := by
    rw [scrollLoop_step 85 84 (2862423051509815793/1638400000000000000) 0 (48661191875666868481/32768000000000000000) 0 [(1, 0)]
      (by norm_num)
      (by norm_num [SCROLL_MIN_VELOCITY, abs_of_nonneg, abs_of_nonpos]) f15, g84]
    simp
  have g86 : scrollLoop 86 ⟨(168377826559400929/81920000000000000), 0⟩ = ([(2, 0), (1, 0), (1, 0), (1, 0), (1, 0)], ⟨0, 0⟩, 9) := by
    rw [scrollLoop_step 86 85 (168377826559400929/81920000000000000) 0 (2862423051509815793/1638400000000000000) 0 [(2, 0)]
      (by norm_num)
      (by norm_num [SCROLL_MIN_VELOCITY, abs_of_nonneg, abs_of_nonpos]) f14, g85]
    simp
  have g87 : scrollLoop 87 ⟨(9904578032905937/4096000000000000), 0⟩ = ([(2, 0), (2, 0), (1, 0), (1, 0), (1, 0), (1, 0)], ⟨0, 0⟩, 10) := by
    rw [scrollLoop_step 87 86 (9904578032905937/4096000000000000) 0 (168377826559400929/81920000000000000) 0 [(2, 0)]
      (by norm_num)
      (by norm_num [SCROLL_MIN_VELOCITY, abs_of_nonneg, abs_of_nonpos]) f13, g86]
    simp
  have g88 : scrollLoop 88 ⟨(582622237229761/204800000000000), 0⟩ = ([(2, 0), (2, 0), (2, 0), (1, 0), (1, 0), (1, 0), (1, 0)], ⟨0, 0⟩, 11) := by
    rw [scrollLoop_step 88 87 (582622237229761/204800000000000) 0 (9904578032905937/4096000000000000) 0 [(2, 0)]
      (by norm_num)
      (by norm_num [SCROLL_MIN_VELOCITY, abs_of_nonneg, abs_of_nonpos]) f12, g87]
    simp
  have g89 : scrollLoop 89 ⟨(34271896307633/10240000000000), 0⟩ = ([(3, 0), (2, 0), (2, 0), (2, 0), (1, 0), (1, 0), (1, 0), (1, 0)], ⟨0, 0⟩, 12) := by
    rw [scrollLoop_step 89 88 (34271896307633/10240000000000) 0 (582622237229761/204800000000000) 0 [(3, 0)]
      (by norm_num)
      (by norm_num [SCROLL_MIN_VELOCITY, abs_of_nonneg, abs_of_nonpos]) f11, g88]
    simp
  have g90 : scrollLoop 90 ⟨(2015993900449/512000000000), 0⟩ = ([(3, 0), (3, 0), (2, 0), (2, 0), (2, 0), (1, 0), (1, 0), (1, 0), (1, 0)], ⟨0, 0⟩, 13) := by
    rw [scrollLoop_step 90 89 (2015993900449/512000000000) 0 (34271896307633/10240000000000) 0 [(3, 0)]
      (by norm_num)
      (by norm_num [SCROLL_MIN_VELOCITY, abs_of_nonneg, abs_of_nonpos]) f10, g89]
    simp
  have g91 : scrollLoop 91 ⟨(118587876497/25600000000), 0⟩ = ([(4, 0), (3, 0), (3, 0), (2, 0), (2, 0), (2, 0), (1, 0), (1, 0), (1, 0), (1, 0)], ⟨0, 0⟩, 14) := by
    rw [scrollLoop_step 91 90 (118587876497/25600000000) 0 (2015993900449/512000000000) 0 [(4, 0)]
      (by norm_num)
      (by norm_num [SCROLL_MIN_VELOCITY, abs_of_nonneg, abs_of_nonpos]) f9, g90]
    simp
  have g92 : scrollLoop 92 ⟨(6975757441/1280000000), 0⟩ = ([(5, 0), (4, 0), (3, 0), (3, 0), (2, 0), (2, 0), (2, 0), (1, 0), (1, 0), (1, 0), (1, 0)], ⟨0, 0⟩, 15) := by
    rw [scrollLoop_step 92 91 (6975757441/1280000000) 0 (118587876497/25600000000) 0 [(5, 0)]
      (by norm_num)
      (by norm_num [SCROLL_MIN_VELOCITY, abs_of_nonneg, abs_of_nonpos]) f8, g91]
    simp
  have g93 : scrollLoop 93 ⟨(410338673/64000000), 0⟩ = ([(6, 0), (5, 0), (4, 0), (3, 0), (3, 0), (2, 0), (2, 0), (2, 0), (1, 0), (1, 0), (1, 0), (1, 0)], ⟨0, 0⟩, 16) := by
    rw [scrollLoop_step 93 92 (410338673/64000000) 0 (6975757441/1280000000) 0 [(6, 0)]
      (by norm_num)
      (by norm_num [SCROLL_MIN_VELOCITY, abs_of_nonneg, abs_of_nonpos]) f7, g92]
    simp
  have g94 : scrollLoop 94 ⟨(24137569/3200000), 0⟩ = ([(7, 0), (6, 0), (5, 0), (4, 0), (3, 0), (3, 0), (2, 0), (2, 0), (2, 0), (1, 0), (1, 0), (1, 0), (1, 0)], ⟨0, 0⟩, 17) := by
    rw [scrollLoop_step 94 93 (24137569/3200000) 0 (410338673/64000000) 0 [(7, 0)]
      (by norm_num)
      (by norm_num [SCROLL_MIN_VELOCITY, abs_of_nonneg, abs_of_nonpos]) f6, g93]
    simp
  have g95 : scrollLoop 95 ⟨(1419857/160000), 0⟩ = ([(8, 0), (7, 0), (6, 0), (5, 0), (4, 0), (3, 0), (3, 0), (2, 0), (2, 0), (2, 0), (1, 0), (1, 0), (1, 0), (1, 0)], ⟨0, 0⟩, 18) := by
    rw [scrollLoop_step 95 94 (1419857/160000) 0 (24137569/3200000) 0 [(8, 0)]
      (by norm_num)
      (by norm_num [SCROLL_MIN_VELOCITY, abs_of_nonneg, abs_of_nonpos]) f5, g94]
    simp
  have g96 : scrollLoop 96 ⟨(83521/8000), 0⟩ = ([(10, 0), (8, 0), (7, 0), (6, 0), (5, 0), (4, 0), (3, 0), (3, 0), (2, 0), (2, 0), (2, 0), (1, 0), (1, 0), (1, 0), (1, 0)], ⟨0, 0⟩, 19) := by
    rw [scrollLoop_step 96 95 (83521/8000) 0 (1419857/160000) 0 [(10, 0)]
      (by norm_num)
      (by norm_num [SCROLL_MIN_VELOCITY, abs_of_nonneg, abs_of_nonpos]) f4, g95]
    simp
  have g97 : scrollLoop 97 ⟨(4913/400), 0⟩ = ([(12, 0), (10, 0), (8, 0), (7, 0), (6, 0), (5, 0), (4, 0), (3, 0), (3, 0), (2, 0), (2, 0), (2, 0), (1, 0), (1, 0), (1, 0), (1, 0)], ⟨0, 0⟩, 20) := by
    rw [scrollLoop_step 97 96 (4913/400) 0 (83521/8000) 0 [(12, 0)]
      (by norm_num)
      (by norm_num [SCROLL_MIN_VELOCITY, abs_of_nonneg, abs_of_nonpos]) f3, g96]
    simp
  have g98 : scrollLoop 98 ⟨(289/20), 0⟩ = ([(14, 0), (12, 0), (10, 0), (8, 0), (7, 0), (6, 0), (5, 0), (4, 0), (3, 0), (3, 0), (2, 0), (2, 0), (2, 0), (1, 0), (1, 0), (1, 0), (1, 0)], ⟨0, 0⟩, 21) := by
    rw [scrollLoop_step 98 97 (289/20) 0 (4913/400) 0 [(14, 0)]
      (by norm_num)
      (by norm_num [SCROLL_MIN_VELOCITY, abs_of_nonneg, abs_of_nonpos]) f2, g97]
    simp
  have g99 : scrollLoop 99 ⟨17, 0⟩ = ([(17, 0), (14, 0), (12, 0), (10, 0), (8, 0), (7, 0), (6, 0), (5, 0), (4, 0), (3, 0), (3, 0), (2, 0), (2, 0), (2, 0), (1, 0), (1, 0), (1, 0), (1, 0)], ⟨0, 0⟩, 22) := by
    rw [scrollLoop_step 99 98 17 0 (289/20) 0 [(17, 0)]
      (by norm_num)
      (by norm_num [SCROLL_MIN_VELOCITY, abs_of_nonneg, abs_of_nonpos]) f1, g98]
    simp
  have g100 : scrollLoop 100 ⟨20, 0⟩ = ([(20, 0), (17, 0), (14, 0), (12, 0), (10, 0), (8, 0), (7, 0), (6, 0), (5, 0), (4, 0), (3, 0), (3, 0), (2, 0), (2, 0), (2, 0), (1, 0), (1, 0), (1, 0), (1, 0)], ⟨0, 0⟩, 23) := by
    rw [scrollLoop_step 100 99 20 0 17 0 [(20, 0)]
      (by norm_num)
      (by norm_num [SCROLL_MIN_VELOCITY, abs_of_nonneg, abs_of_nonpos]) f0, g99]
    simp
  exact g100

lemma scrollRun_neg_x :
    scrollLoop 100 ⟨(-20), 0⟩ = ([((-20), 0), ((-17), 0), ((-14), 0), ((-12), 0), ((-10), 0), ((-8), 0), ((-7), 0), ((-6), 0), ((-5), 0), ((-4), 0), ((-3), 0), ((-3), 0), ((-2), 0), ((-2), 0), ((-2), 0), ((-1), 0), ((-1), 0), ((-1), 0), ((-1), 0)], ⟨0, 0⟩, 23) := by
  have f0 : scrollFrame ⟨(-20), 0⟩ = ([((-20), 0)], ⟨(-17), 0⟩) :=
    scrollFrame_eval (-20) 0 (-17) 0 (-17) 0 (-20) 0 [((-20), 0)]
      (by norm_num [truncQ, Int.floor_eq_iff, Int.ceil_eq_iff])
      (by norm_num [truncQ, Int.floor_eq_iff, Int.ceil_eq_iff])
      (by norm_num)
      (by norm_num [SCROLL_DECELERATION])
      (by norm_num [SCROLL_DECELERATION])
      (by norm_num [SCROLL_MIN_VELOCITY, abs_of_nonneg, abs_of_nonpos])
      (by norm_num [SCROLL_MIN_VELOCITY, abs_of_nonneg, abs_of_nonpos])
  have f1 : scrollFrame ⟨(-17), 0⟩ = ([((-17), 0)], ⟨(-289/20), 0⟩) :=
    scrollFrame_eval (-17) 0 (-289/20) 0 (-289/20) 0 (-17) 0 [((-17), 0)]
      (by norm_num [truncQ, Int.floor_eq_iff, Int.ceil_eq_iff])
      (by norm_num [truncQ, Int.floor_eq_iff, Int.ceil_eq_iff])
      (by norm_num)
      (by norm_num [SCROLL_DECELERATION])
      (by norm_num [SCROLL_DECELERATION])
      (by norm_num [SCROLL_MIN_VELOCITY, abs_of_nonneg, abs_of_nonpos])
      (by norm_num [SCROLL_MIN_VELOCITY, abs_of_nonneg, abs_of_nonpos])
  have f2 : scrollFrame ⟨(-289/20), 0⟩ = ([((-14), 0)], ⟨(-4913/400), 0⟩) :=
    scrollFrame_eval (-289/20) 0 (-4913/400) 0 (-4913/400) 0 (-14) 0 [((-14), 0)]
      (by norm_num [truncQ, Int.floor_eq_iff, Int.ceil_eq_iff])
      (by norm_num [truncQ, Int.floor_eq_iff, Int.ceil_eq_iff])
      (by norm_num)
      (by norm_num [SCROLL_DECELERATION])
      (by norm_num [SCROLL_DECELERATION])
      (by norm_num [SCROLL_MIN_VELOCITY, abs_of_nonneg, abs_of_nonpos])
      (by norm_num [SCROLL_MIN_VELOCITY, abs_of_nonneg, abs_of_nonpos])
  have f3 : scrollFrame ⟨(-4913/400), 0⟩ = ([((-12), 0)], ⟨(-83521/8000), 0⟩) :=
    scrollFrame_eval (-4913/400) 0 (-83521/8000) 0 (-83521/8000) 0 (-12) 0 [((-12), 0)]
      (by norm_num [truncQ, Int.floor_eq_iff, Int.ceil_eq_iff])
      (by norm_num [truncQ, Int.floor_eq_iff, Int.ceil_eq_iff])
      (by norm_num)
      (by norm_num [SCROLL_DECELERATION])
      (by norm_num [SCROLL_DECELERATION])
      (by norm_num [SCROLL_MIN_VELOCITY, abs_of_nonneg, abs_of_nonpos])
      (by norm_num [SCROLL_MIN_VELOCITY, abs_of_nonneg, abs_of_nonpos])
  have f4 : scrollFrame ⟨(-83521/8000), 0⟩ = ([((-10), 0)], ⟨(-1419857/160000), 0⟩) :=
    scrollFrame_eval (-83521/8000) 0 (-1419857/160000) 0 (-1419857/160000) 0 (-10) 0 [((-10), 0)]
      (by norm_num [truncQ, Int.floor_eq_iff, Int.ceil_eq_iff])
      (by norm_num [truncQ, Int.floor_eq_iff, Int.ceil_eq_iff])
      (by norm_num)
      (by norm_num [SCROLL_DECELERATION])
      (by norm_num [SCROLL_DECELERATION])
      (by norm_num [SCROLL_MIN_VELOCITY, abs_of_nonneg, abs_of_nonpos])
      (by norm_num [SCROLL_MIN_VELOCITY, abs_of_nonneg, abs_of_nonpos])
  have f5 : scrollFrame ⟨(-1419857/160000), 0⟩ = ([((-8), 0)], ⟨(-24137569/3200000), 0⟩) :=
    scrollFrame_eval (-1419857/160000) 0 (-24137569/3200000) 0 (-24137569/3200000) 0 (-8) 0 [((-8), 0)]
      (by norm_num [truncQ, Int.floor_eq_iff, Int.ceil_eq_iff])
      (by norm_num [truncQ, Int.floor_eq_iff, Int.ceil_eq_iff])
      (by norm_num)
      (by norm_num [SCROLL_DECELERATION])
      (by norm_num [SCROLL_DECELERATION])
      (by norm_num [SCROLL_MIN_VELOCITY, abs_of_nonneg, abs_of_nonpos])
      (by norm_num [SCROLL_MIN_VELOCITY, abs_of_nonneg, abs_of_nonpos])
  have f6 : scrollFrame ⟨(-24137569/3200000), 0⟩ = ([((-7), 0)], ⟨(-410338673/64000000), 0⟩) :=
    scrollFrame_eval (-24137569/3200000) 0 (-410338673/64000000) 0 (-410338673/64000000) 0 (-7) 0 [((-7), 0)]
      (by norm_num [truncQ, Int.floor_eq_iff, Int.ceil_eq_iff])
      (by norm_num [truncQ, Int.floor_eq_iff, Int.ceil_eq_iff])
      (by norm_num)
      (by norm_num [SCROLL_DECELERATION])
      (by norm_num [SCROLL_DECELERATION])
      (by norm_num [SCROLL_MIN_VELOCITY, abs_of_nonneg, abs_of_nonpos])
      (by norm_num [SCROLL_MIN_VELOCITY, abs_of_nonneg, abs_of_nonpos])
  have f7 : scrollFrame ⟨(-410338673/64000000), 0⟩ = ([((-6), 0)], ⟨(-6975757441/1280000000), 0⟩) :=
    scrollFrame_eval (-410338673/64000000) 0 (-6975757441/1280000000) 0 (-6975757441/1280000000) 0 (-6) 0 [((-6), 0)]
      (by norm_num [truncQ, Int.floor_eq_iff, Int.ceil_eq_iff])
      (by norm_num [truncQ, Int.floor_eq_iff, Int.ceil_eq_iff])
      (by norm_num)
      (by norm_num [SCROLL_DECELERATION])
      (by norm_num [SCROLL_DECELERATION])
      (by norm_num [SCROLL_MIN_VELOCITY, abs_of_nonneg, abs_of_nonpos])
      (by norm_num [SCROLL_MIN_VELOCITY, abs_of_nonneg, abs_of_nonpos])
  have f8 : scrollFrame ⟨(-6975757441/1280000000), 0⟩ = ([((-5), 0)], ⟨(-118587876497/25600000000), 0⟩) :=
    scrollFrame_eval (-6975757441/1280000000) 0 (-118587876497/25600000000) 0 (-118587876497/25600000000) 0 (-5) 0 [((-5), 0)]
      (by norm_num [truncQ, Int.floor_eq_iff, Int.ceil_eq_iff])
      (by norm_num [truncQ, Int.floor_eq_iff, Int.ceil_eq_iff])
      (by norm_num)
      (by norm_num [SCROLL_DECELERATION])
      (by norm_num [SCROLL_DECELERATION])
      (by norm_num [SCROLL_MIN_VELOCITY, abs_of_nonneg, abs_of_nonpos])
      (by norm_num [SCROLL_MIN_VELOCITY, abs_of_nonneg, abs_of_nonpos])
  have f9 : scrollFrame ⟨(-118587876497/25600000000), 0⟩ = ([((-4), 0)], ⟨(-2015993900449/512000000000), 0⟩) :=
    scrollFrame_eval (-118587876497/25600000000) 0 (-2015993900449/512000000000) 0 (-2015993900449/512000000000) 0 (-4) 0 [((-4), 0)]
      (by norm_num [truncQ, Int.floor_eq_iff, Int.ceil_eq_iff])
      (by norm_num [truncQ, Int.floor_eq_iff, Int.ceil_eq_iff])
      (by norm_num)
      (by norm_num [SCROLL_DECELERATION])
      (by norm_num [SCROLL_DECELERATION])
      (by norm_num [SCROLL_MIN_VELOCITY, abs_of_nonneg, abs_of_nonpos])
      (by norm_num [SCROLL_MIN_VELOCITY, abs_of_nonneg, abs_of_nonpos])
  have f10 : scrollFrame ⟨(-2015993900449/512000000000), 0⟩ = ([((-3), 0)], ⟨(-34271896307633/10240000000000), 0⟩) :=
    scrollFrame_eval (-2015993900449/512000000000) 0 (-34271896307633/10240000000000) 0 (-34271896307633/10240000000000) 0 (-3) 0 [((-3), 0)]
      (by norm_num [truncQ, Int.floor_eq_iff, Int.ceil_eq_iff])
      (by norm_num [truncQ, Int.floor_eq_iff, Int.ceil_eq_iff])
      (by norm_num)
      (by norm_num [SCROLL_DECELERATION])
      (by norm_num [SCROLL_DECELERATION])
      (by norm_num [SCROLL_MIN_VELOCITY, abs_of_nonneg, abs_of_nonpos])
      (by norm_num [SCROLL_MIN_VELOCITY, abs_of_nonneg, abs_of_nonpos])
  have f11 : scrollFrame ⟨(-34271896307633/10240000000000), 0⟩ = ([((-3), 0)], ⟨(-582622237229761/204800000000000), 0⟩) :=
    scrollFrame_eval (-34271896307633/10240000000000) 0 (-582622237229761/204800000000000) 0 (-582622237229761/204800000000000) 0 (-3) 0 [((-3), 0)]
      (by norm_num [truncQ, Int.floor_eq_iff, Int.ceil_eq_iff])
      (by norm_num [truncQ, Int.floor_eq_iff, Int.ceil_eq_iff])
      (by norm_num)
      (by norm_num [SCROLL_DECELERATION])
      (by norm_num [SCROLL_DECELERATION])
      (by norm_num [SCROLL_MIN_VELOCITY, abs_of_nonneg, abs_of_nonpos])
      (by norm_num [SCROLL_MIN_VELOCITY, abs_of_nonneg, abs_of_nonpos])
  have f12 : scrollFrame ⟨(-582622237229761/204800000000000), 0⟩ = ([((-2), 0)], ⟨(-9904578032905937/4096000000000000), 0⟩) :=
    scrollFrame_eval (-582622237229761/204800000000000) 0 (-9904578032905937/4096000000000000) 0 (-9904578032905937/4096000000000000) 0 (-2) 0 [((-2), 0)]
      (by norm_num [truncQ, Int.floor_eq_iff, Int.ceil_eq_iff])
      (by norm_num [truncQ, Int.floor_eq_iff, Int.ceil_eq_iff])
      (by norm_num)
      (by norm_num [SCROLL_DECELERATION])
      (by norm_num [SCROLL_DECELERATION])
      (by norm_num [SCROLL_MIN_VELOCITY, abs_of_nonneg, abs_of_nonpos])
      (by norm_num [SCROLL_MIN_VELOCITY, abs_of_nonneg, abs_of_nonpos])
  have f13 : scrollFrame ⟨(-9904578032905937/4096000000000000), 0⟩ = ([((-2), 0)], ⟨(-168377826559400929/81920000000000000), 0⟩) :=
    scrollFrame_eval (-9904578032905937/4096000000000000) 0 (-168377826559400929/81920000000000000) 0 (-168377826559400929/81920000000000000) 0 (-2) 0 [((-2), 0)]
      (by norm_num [truncQ, Int.floor_eq_iff, Int.ceil_eq_iff])
      (by norm_num [truncQ, Int.floor_eq_iff, Int.ceil_eq_iff])
      (by norm_num)
      (by norm_num [SCROLL_DECELERATION])
      (by norm_num [SCROLL_DECELERATION])
      (by norm_num [SCROLL_MIN_VELOCITY, abs_of_nonneg, abs_of_nonpos])
      (by norm_num [SCROLL_MIN_VELOCITY, abs_of_nonneg, abs_of_nonpos])
  have f14 : scrollFrame ⟨(-168377826559400929/81920000000000000), 0⟩ = ([((-2), 0)], ⟨(-2862423051509815793/1638400000000000000), 0⟩) :=
    scrollFrame_eval (-168377826559400929/81920000000000000) 0 (-2862423051509815793/1638400000000000000) 0 (-2862423051509815793/1638400000000000000) 0 (-2) 0 [((-2), 0)]
      (by norm_num [truncQ, Int.floor_eq_iff, Int.ceil_eq_iff])
      (by norm_num [truncQ, Int.floor_eq_iff, Int.ceil_eq_iff])
      (by norm_num)
      (by norm_num [SCROLL_DECELERATION])
      (by norm_num [SCROLL_DECELERATION])
      (by norm_num [SCROLL_MIN_VELOCITY, abs_of_nonneg, abs_of_nonpos])
      (by norm_num [SCROLL_MIN_VELOCITY, abs_of_nonneg, abs_of_nonpos])
  have f15 : scrollFrame ⟨(-2862423051509815793/1638400000000000000), 0⟩ = ([((-1), 0)], ⟨(-48661191875666868481/32768000000000000000), 0⟩) :=
    scrollFrame_eval (-2862423051509815793/1638400000000000000) 0 (-48661191875666868481/32768000000000000000) 0 (-48661191875666868481/32768000000000000000) 0 (-1) 0 [((-1), 0)]
      (by norm_num [truncQ, Int.floor_eq_iff, Int.ceil_eq_iff])
      (by norm_num [truncQ, Int.floor_eq_iff, Int.ceil_eq_iff])
      (by norm_num)
      (by norm_num [SCROLL_DECELERATION])
      (by norm_num [SCROLL_DECELERATION])
      (by norm_num [SCROLL_MIN_VELOCITY, abs_of_nonneg, abs_of_nonpos])
      (by norm_num [SCROLL_MIN_VELOCITY, abs_of_nonneg, abs_of_nonpos])
  have f16 : scrollFrame ⟨(-48661191875666868481/32768000000000000000), 0⟩ = ([((-1), 0)], ⟨(-827240261886336764177/655360000000000000000), 0⟩) :=
    scrollFrame_eval (-48661191875666868481/32768000000000000000) 0 (-827240261886336764177/655360000000000000000) 0 (-827240261886336764177/655360000000000000000) 0 (-1) 0 [((-1), 0)]
      (by norm_num [truncQ, Int.floor_eq_iff, Int.ceil_eq_iff])
      (by norm_num [truncQ, Int.floor_eq_iff, Int.ceil_eq_iff])
      (by norm_num)
      (by norm_num [SCROLL_DECELERATION])
      (by norm_num [SCROLL_DECELERATION])
      (by norm_num [SCROLL_MIN_VELOCITY, abs_of_nonneg, abs_of_nonpos])
      (by norm_num [SCROLL_MIN_VELOCITY, abs_of_nonneg, abs_of_nonpos])
  have f17 : scrollFrame ⟨(-827240261886336764177/655360000000000000000), 0⟩ = ([((-1), 0)], ⟨(-14063084452067724991009/13107200000000000000000), 0⟩) :=
    scrollFrame_eval (-827240261886336764177/655360000000000000000) 0 (-14063084452067724991009/13107200000000000000000) 0 (-14063084452067724991009/13107200000000000000000) 0 (-1) 0 [((-1), 0)]
      (by norm_num [truncQ, Int.floor_eq_iff, Int.ceil_eq_iff])
      (by norm_num [truncQ, Int.floor_eq_iff, Int.ceil_eq_iff])
      (by norm_num)
      (by norm_num [SCROLL_DECELERATION])
      (by norm_num [SCROLL_DECELERATION])
      (by norm_num [SCROLL_MIN_VELOCITY, abs_of_nonneg, abs_of_nonpos])
      (by norm_num [SCROLL_MIN_VELOCITY, abs_of_nonneg, abs_of_nonpos])
  have f18 : scrollFrame ⟨(-14063084452067724991009/13107200000000000000000), 0⟩ = ([((-1), 0)], ⟨(-239072435685151324847153/262144000000000000000000), 0⟩) :=
    scrollFrame_eval (-14063084452067724991009/13107200000000000000000) 0 (-239072435685151324847153/262144000000000000000000) 0 (-239072435685151324847153/262144000000000000000000) 0 (-1) 0 [((-1), 0)]
      (by norm_num [truncQ, Int.floor_eq_iff, Int.ceil_eq_iff])
      (by norm_num [truncQ, Int.floor_eq_iff, Int.ceil_eq_iff])
      (by norm_num)
      (by norm_num [SCROLL_DECELERATION])
      (by norm_num [SCROLL_DECELERATION])
      (by norm_num [SCROLL_MIN_VELOCITY, abs_of_nonneg, abs_of_nonpos])
      (by norm_num [SCROLL_MIN_VELOCITY, abs_of_nonneg, abs_of_nonpos])
  have f19 : scrollFrame ⟨(-239072435685151324847153/262144000000000000000000), 0⟩ = ([], ⟨(-4064231406647572522401601/5242880000000000000000000), 0⟩) :=
    scrollFrame_eval (-239072435685151324847153/262144000000000000000000) 0 (-4064231406647572522401601/5242880000000000000000000) 0 (-4064231406647572522401601/5242880000000000000000000) 0 0 0 []
      (by norm_num [truncQ, Int.floor_eq_iff, Int.ceil_eq_iff])
      (by norm_num [truncQ, Int.floor_eq_iff, Int.ceil_eq_iff])
      (by norm_num)
      (by norm_num [SCROLL_DECELERATION])
      (by norm_num [SCROLL_DECELERATION])
      (by norm_num [SCROLL_MIN_VELOCITY, abs_of_nonneg, abs_of_nonpos])
      (by norm_num [SCROLL_MIN_VELOCITY, abs_of_nonneg, abs_of_nonpos])
  have f20 : scrollFrame ⟨(-4064231406647572522401601/5242880000000000000000000), 0⟩ = ([], ⟨(-69091933913008732880827217/104857600000000000000000000), 0⟩) :=
    scrollFrame_eval (-4064231406647572522401601/5242880000000000000000000) 0 (-69091933913008732880827217/104857600000000000000000000) 0 (-69091933913008732880827217/104857600000000000000000000) 0 0 0 []
      (by norm_num [truncQ, Int.floor_eq_iff, Int.ceil_eq_iff])
      (by norm_num [truncQ, Int.floor_eq_iff, Int.ceil_eq_iff])
      (by norm_num)
      (by norm_num [SCROLL_DECELERATION])
      (by norm_num [SCROLL_DECELERATION])
      (by norm_num [SCROLL_MIN_VELOCITY, abs_of_nonneg, abs_of_nonpos])
      (by norm_num [SCROLL_MIN_VELOCITY, abs_of_nonneg, abs_of_nonpos])
  have f21 : scrollFrame ⟨(-69091933913008732880827217/104857600000000000000000000), 0⟩ = ([], ⟨(-1174562876521148458974062689/2097152000000000000000000000), 0⟩) :=
    scrollFrame_eval (-69091933913008732880827217/104857600000000000000000000) 0 (-1174562876521148458974062689/2097152000000000000000000000) 0 (-1174562876521148458974062689/2097152000000000000000000000) 0 0 0 []
      (by norm_num [truncQ, Int.floor_eq_iff, Int.ceil_eq_iff])
      (by norm_num [truncQ, Int.floor_eq_iff, Int.ceil_eq_iff])
      (by norm_num)
      (by norm_num [SCROLL_DECELERATION])
      (by norm_num [SCROLL_DECELERATION])
      (by norm_num [SCROLL_MIN_VELOCITY, abs_of_nonneg, abs_of_nonpos])
      (by norm_num [SCROLL_MIN_VELOCITY, abs_of_nonneg, abs_of_nonpos])
  have f22 : scrollFrame ⟨(-1174562876521148458974062689/2097152000000000000000000000), 0⟩ = ([], ⟨0, 0⟩) :=
    scrollFrame_eval (-1174562876521148458974062689/2097152000000000000000000000) 0 (-19967568900859523802559065713/41943040000000000000000000000) 0 0 0 0 0 []
      (by norm_num [truncQ, Int.floor_eq_iff, Int.ceil_eq_iff])
      (by norm_num [truncQ, Int.floor_eq_iff, Int.ceil_eq_iff])
      (by norm_num)
      (by norm_num [SCROLL_DECELERATION])
      (by norm_num [SCROLL_DECELERATION])
      (by norm_num [SCROLL_MIN_VELOCITY, abs_of_nonneg, abs_of_nonpos])
      (by norm_num [SCROLL_MIN_VELOCITY, abs_of_nonneg, abs_of_nonpos])
  have g77 : scrollLoop 77 ⟨0, 0⟩ = ([], ⟨0, 0⟩, 0) :=
    scrollLoop_halt 77 0 0 (by norm_num [SCROLL_MIN_VELOCITY])
      (by norm_num [SCROLL_MIN_VELOCITY])
  have g78 : scrollLoop 78 ⟨(-1174562876521148458974062689/2097152000000000000000000000), 0⟩ = ([], ⟨0, 0⟩, 1) := by
    rw [scrollLoop_step 78 77 (-1174562876521148458974062689/2097152000000000000000000000) 0 0 0 []
      (by norm_num)
      (by norm_num [SCROLL_MIN_VELOCITY, abs_of_nonneg, abs_of_nonpos]) f22, g77]
    simp
  have g79 : scrollLoop 79 ⟨(-69091933913008732880827217/104857600000000000000000000), 0⟩ = ([], ⟨0, 0⟩, 2) := by
    rw [scrollLoop_step 79 78 (-69091933913008732880827217/104857600000000000000000000) 0 (-1174562876521148458974062689/2097152000000000000000000000) 0 []
      (by norm_num)
      (by norm_num [SCROLL_MIN_VELOCITY, abs_of_nonneg, abs_of_nonpos]) f21, g78]
    simp
  have g80 : scrollLoop 80 ⟨(-4064231406647572522401601/5242880000000000000000000), 0⟩ = ([], ⟨0, 0⟩, 3) := by
    rw [scrollLoop_step 80 79 (-4064231406647572522401601/5242880000000000000000000) 0 (-69091933913008732880827217/104857600000000000000000000) 0 []
      (by norm_num)
      (by norm_num [SCROLL_MIN_VELOCITY, abs_of_nonneg, abs_of_nonpos]) f20, g79]
    simp
  have g81 : scrollLoop 81 ⟨(-239072435685151324847153/262144000000000000000000), 0⟩ = ([], ⟨0, 0⟩, 4) := by
    rw [scrollLoop_step 81 80 (-239072435685151324847153/262144000000000000000000) 0 (-4064231406647572522401601/5242880000000000000000000) 0 []
      (by norm_num)
      (by norm_num [SCROLL_MIN_VELOCITY, abs_of_nonneg, abs_of_nonpos]) f19, g80]
    simp
  have g82 : scrollLoop 82 ⟨(-14063084452067724991009/13107200000000000000000), 0⟩ = ([((-1), 0)], ⟨0, 0⟩, 5) := by
    rw [scrollLoop_step 82 81 (-14063084452067724991009/13107200000000000000000) 0 (-239072435685151324847153/262144000000000000000000) 0 [((-1), 0)]
      (by norm_num)
      (by norm_num [SCROLL_MIN_VELOCITY, abs_of_nonneg, abs_of_nonpos]) f18, g81]
    simp
  have g83 : scrollLoop 83 ⟨(-827240261886336764177/655360000000000000000), 0⟩ = ([((-1), 0), ((-1), 0)], ⟨0, 0⟩, 6) := by
    rw [scrollLoop_step 83 82 (-827240261886336764177/655360000000000000000) 0 (-14063084452067724991009/13107200000000000000000) 0 [((-1), 0)]
      (by norm_num)
      (by norm_num [SCROLL_MIN_VELOCITY, abs_of_nonneg, abs_of_nonpos]) f17, g82]
    simp
  have g84 : scrollLoop 84 ⟨(-48661191875666868481/32768000000000000000), 0⟩ = ([((-1), 0), ((-1), 0), ((-1), 0)], ⟨0, 0⟩, 7) := by
    rw [scrollLoop_step 84 83 (-48661191875666868481/32768000000000000000) 0 (-827240261886336764177/655360000000000000000) 0 [((-1), 0)]
      (by norm_num)
      (by norm_num [SCROLL_MIN_VELOCITY, abs_of_nonneg, abs_of_nonpos]) f16, g83]
    simp
  have g85 : scrollLoop 85 ⟨(-2862423051509815793/1638400000000000000), 0⟩ = ([((-1), 0), ((-1), 0), ((-1), 0), ((-1), 0)], ⟨0, 0⟩, 8) := by
    rw [scrollLoop_step 85 84 (-2862423051509815793/1638400000000000000) 0 (-48661191875666868481/32768000000000000000) 0 [((-1), 0)]
      (by norm_num)
      (by norm_num [SCROLL_MIN_VELOCITY, abs_of_nonneg, abs_of_nonpos]) f15, g84]
    simp
  have g86 : scrollLoop 86 ⟨(-168377826559400929/81920000000000000), 0⟩ = ([((-2), 0), ((-1), 0), ((-1), 0), ((-1), 0), ((-1), 0)], ⟨0, 0⟩, 9) := by
    rw [scrollLoop_step 86 85 (-168377826559400929/81920000000000000) 0 (-2862423051509815793/1638400000000000000) 0 [((-2), 0)]
      (by norm_num)
      (by norm_num [SCROLL_MIN_VELOCITY, abs_of_nonneg, abs_of_nonpos]) f14, g85]
    simp
  have g87 : scrollLoop 87 ⟨(-9904578032905937/4096000000000000), 0⟩ = ([((-2), 0), ((-2), 0), ((-1), 0), ((-1), 0), ((-1), 0), ((-1), 0)], ⟨0, 0⟩, 10) := by
    rw [scrollLoop_step 87 86 (-9904578032905937/4096000000000000) 0 (-168377826559400929/81920000000000000) 0 [((-2), 0)]
      (by norm_num)
      (by norm_num [SCROLL_MIN_VELOCITY, abs_of_nonneg, abs_of_nonpos]) f13, g86]
    simp
  have g88 : scrollLoop 88 ⟨(-582622237229761/204800000000000), 0⟩ = ([((-2), 0), ((-2), 0), ((-2), 0), ((-1), 0), ((-1), 0), ((-1), 0), ((-1), 0)], ⟨0, 0⟩, 11) := by
    rw [scrollLoop_step 88 87 (-582622237229761/204800000000000) 0 (-9904578032905937/4096000000000000) 0 [((-2), 0)]
      (by norm_num)
      (by norm_num [SCROLL_MIN_VELOCITY, abs_of_nonneg, abs_of_nonpos]) f12, g87]
    simp
  have g89 : scrollLoop 89 ⟨(-34271896307633/10240000000000), 0⟩ = ([((-3), 0), ((-2), 0), ((-2), 0), ((-2), 0), ((-1), 0), ((-1), 0), ((-1), 0), ((-1), 0)], ⟨0, 0⟩, 12) := by
    rw [scrollLoop_step 89 88 (-34271896307633/10240000000000) 0 (-582622237229761/204800000000000) 0 [((-3), 0)]
      (by norm_num)
      (by norm_num [SCROLL_MIN_VELOCITY, abs_of_nonneg, abs_of_nonpos]) f11, g88]
    simp
  have g90 : scrollLoop 90 ⟨(-2015993900449/512000000000), 0⟩ = ([((-3), 0), ((-3), 0), ((-2), 0), ((-2), 0), ((-2), 0), ((-1), 0), ((-1), 0), ((-1), 0), ((-1), 0)], ⟨0, 0⟩, 13) := by
    rw [scrollLoop_step 90 89 (-2015993900449/512000000000) 0 (-34271896307633/10240000000000) 0 [((-3), 0)]
      (by norm_num)
      (by norm_num [SCROLL_MIN_VELOCITY, abs_of_nonneg, abs_of_nonpos]) f10, g89]
    simp
  have g91 : scrollLoop 91 ⟨(-118587876497/25600000000), 0⟩ = ([((-4), 0), ((-3), 0), ((-3), 0), ((-2), 0), ((-2), 0), ((-2), 0), ((-1), 0), ((-1), 0), ((-1), 0), ((-1), 0)], ⟨0, 0⟩, 14) := by
    rw [scrollLoop_step 91 90 (-118587876497/25600000000) 0 (-2015993900449/512000000000) 0 [((-4), 0)]
      (by norm_num)
      (by norm_num [SCROLL_MIN_VELOCITY, abs_of_nonneg, abs_of_nonpos]) f9, g90]
    simp
  have g92 : scrollLoop 92 ⟨(-6975757441/1280000000), 0⟩ = ([((-5), 0), ((-4), 0), ((-3), 0), ((-3), 0), ((-2), 0), ((-2), 0), ((-2), 0), ((-1), 0), ((-1), 0), ((-1), 0), ((-1), 0)], ⟨0, 0⟩, 15) := by
    rw [scrollLoop_step 92 91 (-6975757441/1280000000) 0 (-118587876497/25600000000) 0 [((-5), 0)]
      (by norm_num)
      (by norm_num [SCROLL_MIN_VELOCITY, abs_of_nonneg, abs_of_nonpos]) f8, g91]
    simp
  have g93 : scrollLoop 93 ⟨(-410338673/64000000), 0⟩ = ([((-6), 0), ((-5), 0), ((-4), 0), ((-3), 0), ((-3), 0), ((-2), 0), ((-2), 0), ((-2), 0), ((-1), 0), ((-1), 0), ((-1), 0), ((-1), 0)], ⟨0, 0⟩, 16) := by
    rw [scrollLoop_step 93 92 (-410338673/64000000) 0 (-6975757441/1280000000) 0 [((-6), 0)]
      (by norm_num)
      (by norm_num [SCROLL_MIN_VELOCITY, abs_of_nonneg, abs_of_nonpos]) f7, g92]
    simp
  have g94 : scrollLoop 94 ⟨(-24137569/3200000), 0⟩ = ([((-7), 0), ((-6), 0), ((-5), 0), ((-4), 0), ((-3), 0), ((-3), 0), ((-2), 0), ((-2), 0), ((-2), 0), ((-1), 0), ((-1), 0), ((-1), 0), ((-1), 0)], ⟨0, 0⟩, 17) := by
    rw [scrollLoop_step 94 93 (-24137569/3200000) 0 (-410338673/64000000) 0 [((-7), 0)]
      (by norm_num)
      (by norm_num [SCROLL_MIN_VELOCITY, abs_of_nonneg, abs_of_nonpos]) f6, g93]
    simp
  have g95 : scrollLoop 95 ⟨(-1419857/160000), 0⟩ = ([((-8), 0), ((-7), 0), ((-6), 0), ((-5), 0), ((-4), 0), ((-3), 0), ((-3), 0), ((-2), 0), ((-2), 0), ((-2), 0), ((-1), 0), ((-1), 0), ((-1), 0), ((-1), 0)], ⟨0, 0⟩, 18) := by
    rw [scrollLoop_step 95 94 (-1419857/160000) 0 (-24137569/3200000) 0 [((-8), 0)]
      (by norm_num)
      (by norm_num [SCROLL_MIN_VELOCITY, abs_of_nonneg, abs_of_nonpos]) f5, g94]
    simp
  have g96 : scrollLoop 96 ⟨(-83521/8000), 0⟩ = ([((-10), 0), ((-8), 0), ((-7), 0), ((-6), 0), ((-5), 0), ((-4), 0), ((-3), 0), ((-3), 0), ((-2), 0), ((-2), 0), ((-2), 0), ((-1), 0), ((-1), 0), ((-1), 0), ((-1), 0)], ⟨0, 0⟩, 19) := by
    rw [scrollLoop_step 96 95 (-83521/8000) 0 (-1419857/160000) 0 [((-10), 0)]
      (by norm_num)
      (by norm_num [SCROLL_MIN_VELOCITY, abs_of_nonneg, abs_of_nonpos]) f4, g95]
    simp
  have g97 : scrollLoop 97 ⟨(-4913/400), 0⟩ = ([((-12), 0), ((-10), 0), ((-8), 0), ((-7), 0), ((-6), 0), ((-5), 0), ((-4), 0), ((-3), 0), ((-3), 0), ((-2), 0), ((-2), 0), ((-2), 0), ((-1), 0), ((-1), 0), ((-1), 0), ((-1), 0)], ⟨0, 0⟩, 20) := by
    rw [scrollLoop_step 97 96 (-4913/400) 0 (-83521/8000) 0 [((-12), 0)]
      (by norm_num)
      (by norm_num [SCROLL_MIN_VELOCITY, abs_of_nonneg, abs_of_nonpos]) f3, g96]
    simp
  have g98 : scrollLoop 98 ⟨(-289/20), 0⟩ = ([((-14), 0), ((-12), 0), ((-10), 0), ((-8), 0), ((-7), 0), ((-6), 0), ((-5), 0), ((-4), 0), ((-3), 0), ((-3), 0), ((-2), 0), ((-2), 0), ((-2), 0), ((-1), 0), ((-1), 0), ((-1), 0), ((-1), 0)], ⟨0, 0⟩, 21) := by
    rw [scrollLoop_step 98 97 (-289/20) 0 (-4913/400) 0 [((-14), 0)]
      (by norm_num)
      (by norm_num [SCROLL_MIN_VELOCITY, abs_of_nonneg, abs_of_nonpos]) f2, g97]
    simp
  have g99 : scrollLoop 99 ⟨(-17), 0⟩ = ([((-17), 0), ((-14), 0), ((-12), 0), ((-10), 0), ((-8), 0), ((-7), 0), ((-6), 0), ((-5), 0), ((-4), 0), ((-3), 0), ((-3), 0), ((-2), 0), ((-2), 0), ((-2), 0), ((-1), 0), ((-1), 0), ((-1), 0), ((-1), 0)], ⟨0, 0⟩, 22) := by
    rw [scrollLoop_step 99 98 (-17) 0 (-289/20) 0 [((-17), 0)]
      (by norm_num)
      (by norm_num [SCROLL_MIN_VELOCITY, abs_of_nonneg, abs_of_nonpos]) f1, g98]
    simp
  have g100 : scrollLoop 100 ⟨(-20), 0⟩ = ([((-20), 0), ((-17), 0), ((-14), 0), ((-12), 0), ((-10), 0), ((-8), 0), ((-7), 0), ((-6), 0), ((-5), 0), ((-4), 0), ((-3), 0), ((-3), 0), ((-2), 0), ((-2), 0), ((-2), 0), ((-1), 0), ((-1), 0), ((-1), 0), ((-1), 0)], ⟨0, 0⟩, 23) := by
    rw [scrollLoop_step 100 99 (-20) 0 (-17) 0 [((-20), 0)]
      (by norm_num)
      (by norm_num [SCROLL_MIN_VELOCITY, abs_of_nonneg, abs_of_nonpos]) f0, g99]
    simp
  exact g100

lemma scrollRun_pos_y :
    scrollLoop 100 ⟨0, 20⟩ = ([(0, 20), (0, 17), (0, 14), (0, 12), (0, 10), (0, 8), (0, 7), (0, 6), (0, 5), (0, 4), (0, 3), (0, 3), (0, 2), (0, 2), (0, 2), (0, 1), (0, 1), (0, 1), (0, 1)], ⟨0, 0⟩, 23) := by
  have f0 : scrollFrame ⟨0, 20⟩ = ([(0, 20)], ⟨0, 17⟩) :=
    scrollFrame_eval 0 20 0 17 0 17 0 20 [(0, 20)]
      (by norm_num [truncQ, Int.floor_eq_iff, Int.ceil_eq_iff])
      (by norm_num [truncQ, Int.floor_eq_iff, Int.ceil_eq_iff])
      (by norm_num)
      (by norm_num [SCROLL_DECELERATION])
      (by norm_num [SCROLL_DECELERATION])
      (by norm_num [SCROLL_MIN_VELOCITY, abs_of_nonneg, abs_of_nonpos])
      (by norm_num [SCROLL_MIN_VELOCITY, abs_of_nonneg, abs_of_nonpos])
  have f1 : scrollFrame ⟨0, 17⟩ = ([(0, 17)], ⟨0, (289/20)⟩) :=
    scrollFrame_eval 0 17 0 (289/20) 0 (289/20) 0 17 [(0, 17)]
      (by norm_num [truncQ, Int.floor_eq_iff, Int.ceil_eq_iff])
      (by norm_num [truncQ, Int.floor_eq_iff, Int.ceil_eq_iff])
      (by norm_num)
      (by norm_num [SCROLL_DECELERATION])
      (by norm_num [SCROLL_DECELERATION])
      (by norm_num [SCROLL_MIN_VELOCITY, abs_of_nonneg, abs_of_nonpos])
      (by norm_num [SCROLL_MIN_VELOCITY, abs_of_nonneg, abs_of_nonpos])
  have f2 : scrollFrame ⟨0, (289/20)⟩ = ([(0, 14)], ⟨0, (4913/400)⟩) :=
    scrollFrame_eval 0 (289/20) 0 (4913/400) 0 (4913/400) 0 14 [(0, 14)]
      (by norm_num [truncQ, Int.floor_eq_iff, Int.ceil_eq_iff])
      (by norm_num [truncQ, Int.floor_eq_iff, Int.ceil_eq_iff])
      (by norm_num)
      (by norm_num [SCROLL_DECELERATION])
      (by norm_num [SCROLL_DECELERATION])
      (by norm_num [SCROLL_MIN_VELOCITY, abs_of_nonneg, abs_of_nonpos])
      (by norm_num [SCROLL_MIN_VELOCITY, abs_of_nonneg, abs_of_nonpos])
  have f3 : scrollFrame ⟨0, (4913/400)⟩ = ([(0, 12)], ⟨0, (83521/8000)⟩) :=
    scrollFrame_eval 0 (4913/400) 0 (83521/8000) 0 (83521/8000) 0 12 [(0, 12)]
      (by norm_num [truncQ, Int.floor_eq_iff, Int.ceil_eq_iff])
      (by norm_num [truncQ, Int.floor_eq_iff, Int.ceil_eq_iff])
      (by norm_num)
      (by norm_num [SCROLL_DECELERATION])
      (by norm_num [SCROLL_DECELERATION])
      (by norm_num [SCROLL_MIN_VELOCITY, abs_of_nonneg, abs_of_nonpos])
      (by norm_num [SCROLL_MIN_VELOCITY, abs_of_nonneg, abs_of_nonpos])
  have f4 : scrollFrame ⟨0, (83521/8000)⟩ = ([(0, 10)], ⟨0, (1419857/160000)⟩) :=
    scrollFrame_eval 0 (83521/8000) 0 (1419857/160000) 0 (1419857/160000) 0 10 [(0, 10)]
      (by norm_num [truncQ, Int.floor_eq_iff, Int.ceil_eq_iff])
      (by norm_num [truncQ, Int.floor_eq_iff, Int.ceil_eq_iff])
      (by norm_num)
      (by norm_num [SCROLL_DECELERATION])
      (by norm_num [SCROLL_DECELERATION])
      (by norm_num [SCROLL_MIN_VELOCITY, abs_of_nonneg, abs_of_nonpos])
      (by norm_num [SCROLL_MIN_VELOCITY, abs_of_nonneg, abs_of_nonpos])
  have f5 : scrollFrame ⟨0, (1419857/160000)⟩ = ([(0, 8)], ⟨0, (24137569/3200000)⟩) :=
    scrollFrame_eval 0 (1419857/160000) 0 (24137569/3200000) 0 (24137569/3200000) 0 8 [(0, 8)]
      (by norm_num [truncQ, Int.floor_eq_iff, Int.ceil_eq_iff])
      (by norm_num [truncQ, Int.floor_eq_iff, Int.ceil_eq_iff])
      (by norm_num)
      (by norm_num [SCROLL_DECELERATION])
      (by norm_num [SCROLL_DECELERATION])
      (by norm_num [SCROLL_MIN_VELOCITY, abs_of_nonneg, abs_of_nonpos])
      (by norm_num [SCROLL_MIN_VELOCITY, abs_of_nonneg, abs_of_nonpos])
  have f6 : scrollFrame ⟨0, (24137569/3200000)⟩ = ([(0, 7)], ⟨0, (410338673/64000000)⟩) :=
    scrollFrame_eval 0 (24137569/3200000) 0 (410338673/64000000) 0 (410338673/64000000) 0 7 [(0, 7)]
      (by norm_num [truncQ, Int.floor_eq_iff, Int.ceil_eq_iff])
      (by norm_num [truncQ, Int.floor_eq_iff, Int.ceil_eq_iff])
      (by norm_num)
      (by norm_num [SCROLL_DECELERATION])
      (by norm_num [SCROLL_DECELERATION])
      (by norm_num [SCROLL_MIN_VELOCITY, abs_of_nonneg, abs_of_nonpos])
      (by norm_num [SCROLL_MIN_VELOCITY, abs_of_nonneg, abs_of_nonpos])
  have f7 : scrollFrame ⟨0, (410338673/64000000)⟩ = ([(0, 6)], ⟨0, (6975757441/1280000000)⟩) :=
    scrollFrame_eval 0 (410338673/64000000) 0 (6975757441/1280000000) 0 (6975757441/1280000000) 0 6 [(0, 6)]
      (by norm_num [truncQ, Int.floor_eq_iff, Int.ceil_eq_iff])
      (by norm_num [truncQ, Int.floor_eq_iff, Int.ceil_eq_iff])
      (by norm_num)
      (by norm_num [SCROLL_DECELERATION])
      (by norm_num [SCROLL_DECELERATION])
      (by norm_num [SCROLL_MIN_VELOCITY, abs_of_nonneg, abs_of_nonpos])
      (by norm_num [SCROLL_MIN_VELOCITY, abs_of_nonneg, abs_of_nonpos])
  have f8 : scrollFrame ⟨0, (6975757441/1280000000)⟩ = ([(0, 5)], ⟨0, (118587876497/25600000000)⟩) :=
    scrollFrame_eval 0 (6975757441/1280000000) 0 (118587876497/25600000000) 0 (118587876497/25600000000) 0 5 [(0, 5)]
      (by norm_num [truncQ, Int.floor_eq_iff, Int.ceil_eq_iff])
      (by norm_num [truncQ, Int.floor_eq_iff, Int.ceil_eq_iff])
      (by norm_num)
      (by norm_num [SCROLL_DECELERATION])
      (by norm_num [SCROLL_DECELERATION])
      (by norm_num [SCROLL_MIN_VELOCITY, abs_of_nonneg, abs_of_nonpos])
      (by norm_num [SCROLL_MIN_VELOCITY, abs_of_nonneg, abs_of_nonpos])
  have f9 : scrollFrame ⟨0, (118587876497/25600000000)⟩ = ([(0, 4)], ⟨0, (2015993900449/512000000000)⟩) :=
    scrollFrame_eval 0 (118587876497/25600000000) 0 (2015993900449/512000000000) 0 (2015993900449/512000000000) 0 4 [(0, 4)]
      (by norm_num [truncQ, Int.floor_eq_iff, Int.ceil_eq_iff])
      (by norm_num [truncQ, Int.floor_eq_iff, Int.ceil_eq_iff])
      (by norm_num)
      (by norm_num [SCROLL_DECELERATION])
      (by norm_num [SCROLL_DECELERATION])
      (by norm_num [SCROLL_MIN_VELOCITY, abs_of_nonneg, abs_of_nonpos])
      (by norm_num [SCROLL_MIN_VELOCITY, abs_of_nonneg, abs_of_nonpos])
  have f10 : scrollFrame ⟨0, (2015993900449/512000000000)⟩ = ([(0, 3)], ⟨0, (34271896307633/10240000000000)⟩) :=
    scrollFrame_eval 0 (2015993900449/512000000000) 0 (34271896307633/10240000000000) 0 (34271896307633/10240000000000) 0 3 [(0, 3)]
      (by norm_num [truncQ, Int.floor_eq_iff, Int.ceil_eq_iff])
      (by norm_num [truncQ, Int.floor_eq_iff, Int.ceil_eq_iff])
      (by norm_num)
      (by norm_num [SCROLL_DECELERATION])
      (by norm_num [SCROLL_DECELERATION])
      (by norm_num [SCROLL_MIN_VELOCITY, abs_of_nonneg, abs_of_nonpos])
      (by norm_num [SCROLL_MIN_VELOCITY, abs_of_nonneg, abs_of_nonpos])
  have f11 : scrollFrame ⟨0, (34271896307633/10240000000000)⟩ = ([(0, 3)], ⟨0, (582622237229761/204800000000000)⟩) :=
    scrollFrame_eval 0 (34271896307633/10240000000000) 0 (582622237229761/204800000000000) 0 (582622237229761/204800000000000) 0 3 [(0, 3)]
      (by norm_num [truncQ, Int.floor_eq_iff, Int.ceil_eq_iff])
      (by norm_num [truncQ, Int.floor_eq_iff, Int.ceil_eq_iff])
      (by norm_num)
      (by norm_num [SCROLL_DECELERATION])
      (by norm_num [SCROLL_DECELERATION])
      (by norm_num [SCROLL_MIN_VELOCITY, abs_of_nonneg, abs_of_nonpos])
      (by norm_num [SCROLL_MIN_VELOCITY, abs_of_nonneg, abs_of_nonpos])
  have f12 : scrollFrame ⟨0, (582622237229761/204800000000000)⟩ = ([(0, 2)], ⟨0, (9904578032905937/4096000000000000)⟩) :=
    scrollFrame_eval 0 (582622237229761/204800000000000) 0 (9904578032905937/4096000000000000) 0 (9904578032905937/4096000000000000) 0 2 [(0, 2)]
      (by norm_num [truncQ, Int.floor_eq_iff, Int.ceil_eq_iff])
      (by norm_num [truncQ, Int.floor_eq_iff, Int.ceil_eq_iff])
      (by norm_num)
      (by norm_num [SCROLL_DECELERATION])
      (by norm_num [SCROLL_DECELERATION])
      (by norm_num [SCROLL_MIN_VELOCITY, abs_of_nonneg, abs_of_nonpos])
      (by norm_num [SCROLL_MIN_VELOCITY, abs_of_nonneg, abs_of_nonpos])
  have f13 : scrollFrame ⟨0, (9904578032905937/4096000000000000)⟩ = ([(0, 2)], ⟨0, (168377826559400929/81920000000000000)⟩) :=
    scrollFrame_eval 0 (9904578032905937/4096000000000000) 0 (168377826559400929/81920000000000000) 0 (168377826559400929/81920000000000000) 0 2 [(0, 2)]
      (by norm_num [truncQ, Int.floor_eq_iff, Int.ceil_eq_iff])
      (by norm_num [truncQ, Int.floor_eq_iff, Int.ceil_eq_iff])
      (by norm_num)
      (by norm_num [SCROLL_DECELERATION])
      (by norm_num [SCROLL_DECELERATION])
      (by norm_num [SCROLL_MIN_VELOCITY, abs_of_nonneg, abs_of_nonpos])
      (by norm_num [SCROLL_MIN_VELOCITY, abs_of_nonneg, abs_of_nonpos])
  have f14 : scrollFrame ⟨0, (168377826559400929/81920000000000000)⟩ = ([(0, 2)], ⟨0, (2862423051509815793/1638400000000000000)⟩) :=
    scrollFrame_eval 0 (168377826559400929/81920000000000000) 0 (2862423051509815793/1638400000000000000) 0 (2862423051509815793/1638400000000000000) 0 2 [(0, 2)]
      (by norm_num [truncQ, Int.floor_eq_iff, Int.ceil_eq_iff])
      (by norm_num [truncQ, Int.floor_eq_iff, Int.ceil_eq_iff])
      (by norm_num)
      (by norm_num [SCROLL_DECELERATION])
      (by norm_num [SCROLL_DECELERATION])
      (by norm_num [SCROLL_MIN_VELOCITY, abs_of_nonneg, abs_of_nonpos])
      (by norm_num [SCROLL_MIN_VELOCITY, abs_of_nonneg, abs_of_nonpos])
  have f15 : scrollFrame ⟨0, (2862423051509815793/1638400000000000000)⟩ = ([(0, 1)], ⟨0, (48661191875666868481/32768000000000000000)⟩) :=
    scrollFrame_eval 0 (2862423051509815793/1638400000000000000) 0 (48661191875666868481/32768000000000000000) 0 (48661191875666868481/32768000000000000000) 0 1 [(0, 1)]
      (by norm_num [truncQ, Int.floor_eq_iff, Int.ceil_eq_iff])
      (by norm_num [truncQ, Int.floor_eq_iff, Int.ceil_eq_iff])
      (by norm_num)
      (by norm_num [SCROLL_DECELERATION])
      (by norm_num [SCROLL_DECELERATION])
      (by norm_num [SCROLL_MIN_VELOCITY, abs_of_nonneg, abs_of_nonpos])
      (by norm_num [SCROLL_MIN_VELOCITY, abs_of_nonneg, abs_of_nonpos])
  have f16 : scrollFrame ⟨0, (48661191875666868481/32768000000000000000)⟩ = ([(0, 1)], ⟨0, (827240261886336764177/655360000000000000000)⟩) :=
    scrollFrame_eval 0 (48661191875666868481/32768000000000000000) 0 (827240261886336764177/655360000000000000000) 0 (827240261886336764177/655360000000000000000) 0 1 [(0, 1)]
      (by norm_num [truncQ, Int.floor_eq_iff, Int.ceil_eq_iff])
      (by norm_num [truncQ, Int.floor_eq_iff, Int.ceil_eq_iff])
      (by norm_num)
      (by norm_num [SCROLL_DECELERATION])
      (by norm_num [SCROLL_DECELERATION])
      (by norm_num [SCROLL_MIN_VELOCITY, abs_of_nonneg, abs_of_nonpos])
      (by norm_num [SCROLL_MIN_VELOCITY, abs_of_nonneg, abs_of_nonpos])
  have f17 : scrollFrame ⟨0, (827240261886336764177/655360000000000000000)⟩ = ([(0, 1)], ⟨0, (14063084452067724991009/13107200000000000000000)⟩) :=
    scrollFrame_eval 0 (827240261886336764177/655360000000000000000) 0 (14063084452067724991009/13107200000000000000000) 0 (14063084452067724991009/13107200000000000000000) 0 1 [(0, 1)]
      (by norm_num [truncQ, Int.floor_eq_iff, Int.ceil_eq_iff])
      (by norm_num [truncQ, Int.floor_eq_iff, Int.ceil_eq_iff])
      (by norm_num)
      (by norm_num [SCROLL_DECELERATION])
      (by norm_num [SCROLL_DECELERATION])
      (by norm_num [SCROLL_MIN_VELOCITY, abs_of_nonneg, abs_of_nonpos])
      (by norm_num [SCROLL_MIN_VELOCITY, abs_of_nonneg, abs_of_nonpos])
  have f18 : scrollFrame ⟨0, (14063084452067724991009/13107200000000000000000)⟩ = ([(0, 1)], ⟨0, (239072435685151324847153/262144000000000000000000)⟩) :=
    scrollFrame_eval 0 (14063084452067724991009/13107200000000000000000) 0 (239072435685151324847153/262144000000000000000000) 0 (239072435685151324847153/262144000000000000000000) 0 1 [(0, 1)]
      (by norm_num [truncQ, Int.floor_eq_iff, Int.ceil_eq_iff])
      (by norm_num [truncQ, Int.floor_eq_iff, Int.ceil_eq_iff])
      (by norm_num)
      (by norm_num [SCROLL_DECELERATION])
      (by norm_num [SCROLL_DECELERATION])
      (by norm_num [SCROLL_MIN_VELOCITY, abs_of_nonneg, abs_of_nonpos])
      (by norm_num [SCROLL_MIN_VELOCITY, abs_of_nonneg, abs_of_nonpos])
  have f19 : scrollFrame ⟨0, (239072435685151324847153/262144000000000000000000)⟩ = ([], ⟨0, (4064231406647572522401601/5242880000000000000000000)⟩) :=
    scrollFrame_eval 0 (239072435685151324847153/262144000000000000000000) 0 (4064231406647572522401601/5242880000000000000000000) 0 (4064231406647572522401601/5242880000000000000000000) 0 0 []
      (by norm_num [truncQ, Int.floor_eq_iff, Int.ceil_eq_iff])
      (by norm_num [truncQ, Int.floor_eq_iff, Int.ceil_eq_iff])
      (by norm_num)
      (by norm_num [SCROLL_DECELERATION])
      (by norm_num [SCROLL_DECELERATION])
      (by norm_num [SCROLL_MIN_VELOCITY, abs_of_nonneg, abs_of_nonpos])
      (by norm_num [SCROLL_MIN_VELOCITY, abs_of_nonneg, abs_of_nonpos])
  have f20 : scrollFrame ⟨0, (4064231406647572522401601/5242880000000000000000000)⟩ = ([], ⟨0, (69091933913008732880827217/104857600000000000000000000)⟩) :=
    scrollFrame_eval 0 (4064231406647572522401601/5242880000000000000000000) 0 (69091933913008732880827217/104857600000000000000000000) 0 (69091933913008732880827217/104857600000000000000000000) 0 0 []
      (by norm_num [truncQ, Int.floor_eq_iff, Int.ceil_eq_iff])
      (by norm_num [truncQ, Int.floor_eq_iff, Int.ceil_eq_iff])
      (by norm_num)
      (by norm_num [SCROLL_DECELERATION])
      (by norm_num [SCROLL_DECELERATION])
      (by norm_num [SCROLL_MIN_VELOCITY, abs_of_nonneg, abs_of_nonpos])
      (by norm_num [SCROLL_MIN_VELOCITY, abs_of_nonneg, abs_of_nonpos])
  have f21 : scrollFrame ⟨0, (69091933913008732880827217/104857600000000000000000000)⟩ = ([], ⟨0, (1174562876521148458974062689/2097152000000000000000000000)⟩) :=
    scrollFrame_eval 0 (69091933913008732880827217/104857600000000000000000000) 0 (1174562876521148458974062689/2097152000000000000000000000) 0 (1174562876521148458974062689/2097152000000000000000000000) 0 0 []
      (by norm_num [truncQ, Int.floor_eq_iff, Int.ceil_eq_iff])
      (by norm_num [truncQ, Int.floor_eq_iff, Int.ceil_eq_iff])
      (by norm_num)
      (by norm_num [SCROLL_DECELERATION])
      (by norm_num [SCROLL_DECELERATION])
      (by norm_num [SCROLL_MIN_VELOCITY, abs_of_nonneg, abs_of_nonpos])
      (by norm_num [SCROLL_MIN_VELOCITY, abs_of_nonneg, abs_of_nonpos])
  have f22 : scrollFrame ⟨0, (1174562876521148458974062689/2097152000000000000000000000)⟩ = ([], ⟨0, 0⟩) :=
    scrollFrame_eval 0 (1174562876521148458974062689/2097152000000000000000000000) 0 (19967568900859523802559065713/41943040000000000000000000000) 0 0 0 0 []
      (by norm_num [truncQ, Int.floor_eq_iff, Int.ceil_eq_iff])
      (by norm_num [truncQ, Int.floor_eq_iff, Int.ceil_eq_iff])
      (by norm_num)
      (by norm_num [SCROLL_DECELERATION])
      (by norm_num [SCROLL_DECELERATION])
      (by norm_num [SCROLL_MIN_VELOCITY, abs_of_nonneg, abs_of_nonpos])
      (by norm_num [SCROLL_MIN_VELOCITY, abs_of_nonneg, abs_of_nonpos])
  have g77 : scrollLoop 77 ⟨0, 0⟩ = ([], ⟨0, 0⟩, 0) :=
    scrollLoop_halt 77 0 0 (by norm_num [SCROLL_MIN_VELOCITY])
      (by norm_num [SCROLL_MIN_VELOCITY])
  have g78 : scrollLoop 78 ⟨0, (1174562876521148458974062689/2097152000000000000000000000)⟩ = ([], ⟨0, 0⟩, 1) := by
    rw [scrollLoop_step 78 77 0 (1174562876521148458974062689/2097152000000000000000000000) 0 0 []
      (by norm_num)
      (by norm_num [SCROLL_MIN_VELOCITY, abs_of_nonneg, abs_of_nonpos]) f22, g77]
    simp
  have g79 : scrollLoop 79 ⟨0, (69091933913008732880827217/104857600000000000000000000)⟩ = ([], ⟨0, 0⟩, 2) := by
    rw [scrollLoop_step 79 78 0 (69091933913008732880827217/104857600000000000000000000) 0 (1174562876521148458974062689/2097152000000000000000000000) []
      (by norm_num)
      (by norm_num [SCROLL_MIN_VELOCITY, abs_of_nonneg, abs_of_nonpos]) f21, g78]
    simp
  have g80 : scrollLoop 80 ⟨0, (4064231406647572522401601/5242880000000000000000000)⟩ = ([], ⟨0, 0⟩, 3) := by
    rw [scrollLoop_step 80 79 0 (4064231406647572522401601/5242880000000000000000000) 0 (69091933913008732880827217/104857600000000000000000000) []
      (by norm_num)
      (by norm_num [SCROLL_MIN_VELOCITY, abs_of_nonneg, abs_of_nonpos]) f20, g79]
    simp
  have g81 : scrollLoop 81 ⟨0, (239072435685151324847153/262144000000000000000000)⟩ = ([], ⟨0, 0⟩, 4) := by
    rw [scrollLoop_step 81 80 0 (239072435685151324847153/262144000000000000000000) 0 (4064231406647572522401601/5242880000000000000000000) []
      (by norm_num)
      (by norm_num [SCROLL_MIN_VELOCITY, abs_of_nonneg, abs_of_nonpos]) f19, g80]
    simp
  have g82 : scrollLoop 82 ⟨0, (14063084452067724991009/13107200000000000000000)⟩ = ([(0, 1)], ⟨0, 0⟩, 5) := by
    rw [scrollLoop_step 82 81 0 (14063084452067724991009/13107200000000000000000) 0 (239072435685151324847153/262144000000000000000000) [(0, 1)]
      (by norm_num)
      (by norm_num [SCROLL_MIN_VELOCITY, abs_of_nonneg, abs_of_nonpos]) f18, g81]
    simp
  have g83 : scrollLoop 83 ⟨0, (827240261886336764177/655360000000000000000)⟩ = ([(0, 1), (0, 1)], ⟨0, 0⟩, 6) := by
    rw [scrollLoop_step 83 82 0 (827240261886336764177/655360000000000000000) 0 (14063084452067724991009/13107200000000000000000) [(0, 1)]
      (by norm_num)
      (by norm_num [SCROLL_MIN_VELOCITY, abs_of_nonneg, abs_of_nonpos]) f17, g82]
    simp
  have g84 : scrollLoop 84 ⟨0, (48661191875666868481/32768000000000000000)⟩ = ([(0, 1), (0, 1), (0, 1)], ⟨0, 0⟩, 7) := by
    rw [scrollLoop_step 84 83 0 (48661191875666868481/32768000000000000000) 0 (827240261886336764177/655360000000000000000) [(0, 1)]
      (by norm_num)
      (by norm_num [SCROLL_MIN_VELOCITY, abs_of_nonneg, abs_of_nonpos]) f16, g83]
    simp
  have g85 : scrollLoop 85 ⟨0, (2862423051509815793/1638400000000000000)⟩ = ([(0, 1), (0, 1), (0, 1), (0, 1)], ⟨0, 0⟩, 8) := by
    rw [scrollLoop_step 85 84 0 (2862423051509815793/1638400000000000000) 0 (48661191875666868481/32768000000000000000) [(0, 1)]
      (by norm_num)
      (by norm_num [SCROLL_MIN_VELOCITY, abs_of_nonneg, abs_of_nonpos]) f15, g84]
    simp
  have g86 : scrollLoop 86 ⟨0, (168377826559400929/81920000000000000)⟩ = ([(0, 2), (0, 1), (0, 1), (0, 1), (0, 1)], ⟨0, 0⟩, 9) := by
    rw [scrollLoop_step 86 85 0 (168377826559400929/81920000000000000) 0 (2862423051509815793/1638400000000000000) [(0, 2)]
      (by norm_num)
      (by norm_num [SCROLL_MIN_VELOCITY, abs_of_nonneg, abs_of_nonpos]) f14, g85]
    simp
  have g87 : scrollLoop 87 ⟨0, (9904578032905937/4096000000000000)⟩ = ([(0, 2), (0, 2), (0, 1), (0, 1), (0, 1), (0, 1)], ⟨0, 0⟩, 10) := by
    rw [scrollLoop_step 87 86 0 (9904578032905937/4096000000000000) 0 (168377826559400929/81920000000000000) [(0, 2)]
      (by norm_num)
      (by norm_num [SCROLL_MIN_VELOCITY, abs_of_nonneg, abs_of_nonpos]) f13, g86]
    simp
  have g88 : scrollLoop 88 ⟨0, (582622237229761/204800000000000)⟩ = ([(0, 2), (0, 2), (0, 2), (0, 1), (0, 1), (0, 1), (0, 1)], ⟨0, 0⟩, 11) := by
    rw [scrollLoop_step 88 87 0 (582622237229761/204800000000000) 0 (9904578032905937/4096000000000000) [(0, 2)]
      (by norm_num)
      (by norm_num [SCROLL_MIN_VELOCITY, abs_of_nonneg, abs_of_nonpos]) f12, g87]
    simp
  have g89 : scrollLoop 89 ⟨0, (34271896307633/10240000000000)⟩ = ([(0, 3), (0, 2), (0, 2), (0, 2), (0, 1), (0, 1), (0, 1), (0, 1)], ⟨0, 0⟩, 12) := by
    rw [scrollLoop_step 89 88 0 (34271896307633/10240000000000) 0 (582622237229761/204800000000000) [(0, 3)]
      (by norm_num)
      (by norm_num [SCROLL_MIN_VELOCITY, abs_of_nonneg, abs_of_nonpos]) f11, g88]
    simp
  have g90 : scrollLoop 90 ⟨0, (2015993900449/512000000000)⟩ = ([(0, 3), (0, 3), (0, 2), (0, 2), (0, 2), (0, 1), (0, 1), (0, 1), (0, 1)], ⟨0, 0⟩, 13) := by
    rw [scrollLoop_step 90 89 0 (2015993900449/512000000000) 0 (34271896307633/10240000000000) [(0, 3)]
      (by norm_num)
      (by norm_num [SCROLL_MIN_VELOCITY, abs_of_nonneg, abs_of_nonpos]) f10, g89]
    simp
  have g91 : scrollLoop 91 ⟨0, (118587876497/25600000000)⟩ = ([(0, 4), (0, 3), (0, 3), (0, 2), (0, 2), (0, 2), (0, 1), (0, 1), (0, 1), (0, 1)], ⟨0, 0⟩, 14) := by
    rw [scrollLoop_step 91 90 0 (118587876497/25600000000) 0 (2015993900449/512000000000) [(0, 4)]
      (by norm_num)
      (by norm_num [SCROLL_MIN_VELOCITY, abs_of_nonneg, abs_of_nonpos]) f9, g90]
    simp
  have g92 : scrollLoop 92 ⟨0, (6975757441/1280000000)⟩ = ([(0, 5), (0, 4), (0, 3), (0, 3), (0, 2), (0, 2), (0, 2), (0, 1), (0, 1), (0, 1), (0, 1)], ⟨0, 0⟩, 15) := by
    rw [scrollLoop_step 92 91 0 (6975757441/1280000000) 0 (118587876497/25600000000) [(0, 5)]
      (by norm_num)
      (by norm_num [SCROLL_MIN_VELOCITY, abs_of_nonneg, abs_of_nonpos]) f8, g91]
    simp
  have g93 : scrollLoop 93 ⟨0, (410338673/64000000)⟩ = ([(0, 6), (0, 5), (0, 4), (0, 3), (0, 3), (0, 2), (0, 2), (0, 2), (0, 1), (0, 1), (0, 1), (0, 1)], ⟨0, 0⟩, 16) := by
    rw [scrollLoop_step 93 92 0 (410338673/64000000) 0 (6975757441/1280000000) [(0, 6)]
      (by norm_num)
      (by norm_num [SCROLL_MIN_VELOCITY, abs_of_nonneg, abs_of_nonpos]) f7, g92]
    simp
  have g94 : scrollLoop 94 ⟨0, (24137569/3200000)⟩ = ([(0, 7), (0, 6), (0, 5), (0, 4), (0, 3), (0, 3), (0, 2), (0, 2), (0, 2), (0, 1), (0, 1), (0, 1), (0, 1)], ⟨0, 0⟩, 17) := by
    rw [scrollLoop_step 94 93 0 (24137569/3200000) 0 (410338673/64000000) [(0, 7)]
      (by norm_num)
      (by norm_num [SCROLL_MIN_VELOCITY, abs_of_nonneg, abs_of_nonpos]) f6, g93]
    simp
  have g95 : scrollLoop 95 ⟨0, (1419857/160000)⟩ = ([(0, 8), (0, 7), (0, 6), (0, 5), (0, 4), (0, 3), (0, 3), (0, 2), (0, 2), (0, 2), (0, 1), (0, 1), (0, 1), (0, 1)], ⟨0, 0⟩, 18) := by
    rw [scrollLoop_step 95 94 0 (1419857/160000) 0 (24137569/3200000) [(0, 8)]
      (by norm_num)
      (by norm_num [SCROLL_MIN_VELOCITY, abs_of_nonneg, abs_of_nonpos]) f5, g94]
    simp
  have g96 : scrollLoop 96 ⟨0, (83521/8000)⟩ = ([(0, 10), (0, 8), (0, 7), (0, 6), (0, 5), (0, 4), (0, 3), (0, 3), (0, 2), (0, 2), (0, 2), (0, 1), (0, 1), (0, 1), (0, 1)], ⟨0, 0⟩, 19) := by
    rw [scrollLoop_step 96 95 0 (83521/8000) 0 (1419857/160000) [(0, 10)]
      (by norm_num)
      (by norm_num [SCROLL_MIN_VELOCITY, abs_of_nonneg, abs_of_nonpos]) f4, g95]
    simp
  have g97 : scrollLoop 97 ⟨0, (4913/400)⟩ = ([(0, 12), (0, 10), (0, 8), (0, 7), (0, 6), (0, 5), (0, 4), (0, 3), (0, 3), (0, 2), (0, 2), (0, 2), (0, 1), (0, 1), (0, 1), (0, 1)], ⟨0, 0⟩, 20) := by
    rw [scrollLoop_step 97 96 0 (4913/400) 0 (83521/8000) [(0, 12)]
      (by norm_num)
      (by norm_num [SCROLL_MIN_VELOCITY, abs_of_nonneg, abs_of_nonpos]) f3, g96]
    simp
  have g98 : scrollLoop 98 ⟨0, (289/20)⟩ = ([(0, 14), (0, 12), (0, 10), (0, 8), (0, 7), (0, 6), (0, 5), (0, 4), (0, 3), (0, 3), (0, 2), (0, 2), (0, 2), (0, 1), (0, 1), (0, 1), (0, 1)], ⟨0, 0⟩, 21) := by
    rw [scrollLoop_step 98 97 0 (289/20) 0 (4913/400) [(0, 14)]
      (by norm_num)
      (by norm_num [SCROLL_MIN_VELOCITY, abs_of_nonneg, abs_of_nonpos]) f2, g97]
    simp
  have g99 : scrollLoop 99 ⟨0, 17⟩ = ([(0, 17), (0, 14), (0, 12), (0, 10), (0, 8), (0, 7), (0, 6), (0, 5), (0, 4), (0, 3), (0, 3), (0, 2), (0, 2), (0, 2), (0, 1), (0, 1), (0, 1), (0, 1)], ⟨0, 0⟩, 22) := by
    rw [scrollLoop_step 99 98 0 17 0 (289/20) [(0, 17)]
      (by norm_num)
      (by norm_num [SCROLL_MIN_VELOCITY, abs_of_nonneg, abs_of_nonpos]) f1, g98]
    simp
  have g100 : scrollLoop 100 ⟨0, 20⟩ = ([(0, 20), (0, 17), (0, 14), (0, 12), (0, 10), (0, 8), (0, 7), (0, 6), (0, 5), (0, 4), (0, 3), (0, 3), (0, 2), (0, 2), (0, 2), (0, 1), (0, 1), (0, 1), (0, 1)], ⟨0, 0⟩, 23) := by
    rw [scrollLoop_step 100 99 0 20 0 17 [(0, 20)]
      (by norm_num)
      (by norm_num [SCROLL_MIN_VELOCITY, abs_of_nonneg, abs_of_nonpos]) f0, g99]
    simp
  exact g100

lemma scrollRun_neg_y :
    scrollLoop 100 ⟨0, (-20)⟩ = ([(0, (-20)), (0, (-17)), (0, (-14)), (0, (-12)), (0, (-10)), (0, (-8)), (0, (-7)), (0, (-6)), (0, (-5)), (0, (-4)), (0, (-3)), (0, (-3)), (0, (-2)), (0, (-2)), (0, (-2)), (0, (-1)), (0, (-1)), (0, (-1)), (0, (-1))], ⟨0, 0⟩, 23) := by
  have f0 : scrollFrame ⟨0, (-20)⟩ = ([(0, (-20))], ⟨0, (-17)⟩) :=
    scrollFrame_eval 0 (-20) 0 (-17) 0 (-17) 0 (-20) [(0, (-20))]
      (by norm_num [truncQ, Int.floor_eq_iff, Int.ceil_eq_iff])
      (by norm_num [truncQ, Int.floor_eq_iff, Int.ceil_eq_iff])
      (by norm_num)
      (by norm_num [SCROLL_DECELERATION])
      (by norm_num [SCROLL_DECELERATION])
      (by norm_num [SCROLL_MIN_VELOCITY, abs_of_nonneg, abs_of_nonpos])
      (by norm_num [SCROLL_MIN_VELOCITY, abs_of_nonneg, abs_of_nonpos])
  have f1 : scrollFrame ⟨0, (-17)⟩ = ([(0, (-17))], ⟨0, (-289/20)⟩) :=
    scrollFrame_eval 0 (-17) 0 (-289/20) 0 (-289/20) 0 (-17) [(0, (-17))]
      (by norm_num [truncQ, Int.floor_eq_iff, Int.ceil_eq_iff])
      (by norm_num [truncQ, Int.floor_eq_iff, Int.ceil_eq_iff])
      (by norm_num)
      (by norm_num [SCROLL_DECELERATION])
      (by norm_num [SCROLL_DECELERATION])
      (by norm_num [SCROLL_MIN_VELOCITY, abs_of_nonneg, abs_of_nonpos])
      (by norm_num [SCROLL_MIN_VELOCITY, abs_of_nonneg, abs_of_nonpos])
  have f2 : scrollFrame ⟨0, (-289/20)⟩ = ([(0, (-14))], ⟨0, (-4913/400)⟩) :=
    scrollFrame_eval 0 (-289/20) 0 (-4913/400) 0 (-4913/400) 0 (-14) [(0, (-14))]
      (by norm_num [truncQ, Int.floor_eq_iff, Int.ceil_eq_iff])
      (by norm_num [truncQ, Int.floor_eq_iff, Int.ceil_eq_iff])
      (by norm_num)
      (by norm_num [SCROLL_DECELERATION])
      (by norm_num [SCROLL_DECELERATION])
      (by norm_num [SCROLL_MIN_VELOCITY, abs_of_nonneg, abs_of_nonpos])
      (by norm_num [SCROLL_MIN_VELOCITY, abs_of_nonneg, abs_of_nonpos])
  have f3 : scrollFrame ⟨0, (-4913/400)⟩ = ([(0, (-12))], ⟨0, (-83521/8000)⟩) :=
    scrollFrame_eval 0 (-4913/400) 0 (-83521/8000) 0 (-83521/8000) 0 (-12) [(0, (-12))]
      (by norm_num [truncQ, Int.floor_eq_iff, Int.ceil_eq_iff])
      (by norm_num [truncQ, Int.floor_eq_iff, Int.ceil_eq_iff])
      (by norm_num)
      (by norm_num [SCROLL_DECELERATION])
      (by norm_num [SCROLL_DECELERATION])
      (by norm_num [SCROLL_MIN_VELOCITY, abs_of_nonneg, abs_of_nonpos])
      (by norm_num [SCROLL_MIN_VELOCITY, abs_of_nonneg, abs_of_nonpos])
  have f4 : scrollFrame ⟨0, (-83521/8000)⟩ = ([(0, (-10))], ⟨0, (-1419857/160000)⟩) :=
    scrollFrame_eval 0 (-83521/8000) 0 (-1419857/160000) 0 (-1419857/160000) 0 (-10) [(0, (-10))]
      (by norm_num [truncQ, Int.floor_eq_iff, Int.ceil_eq_iff])
      (by norm_num [truncQ, Int.floor_eq_iff, Int.ceil_eq_iff])
      (by norm_num)
      (by norm_num [SCROLL_DECELERATION])
      (by norm_num [SCROLL_DECELERATION])
      (by norm_num [SCROLL_MIN_VELOCITY, abs_of_nonneg, abs_of_nonpos])
      (by norm_num [SCROLL_MIN_VELOCITY, abs_of_nonneg, abs_of_nonpos])
  have f5 : scrollFrame ⟨0, (-1419857/160000)⟩ = ([(0, (-8))], ⟨0, (-24137569/3200000)⟩) :=
    scrollFrame_eval 0 (-1419857/160000) 0 (-24137569/3200000) 0 (-24137569/3200000) 0 (-8) [(0, (-8))]
      (by norm_num [truncQ, Int.floor_eq_iff, Int.ceil_eq_iff])
      (by norm_num [truncQ, Int.floor_eq_iff, Int.ceil_eq_iff])
      (by norm_num)
      (by norm_num [SCROLL_DECELERATION])
      (by norm_num [SCROLL_DECELERATION])
      (by norm_num [SCROLL_MIN_VELOCITY, abs_of_nonneg, abs_of_nonpos])
      (by norm_num [SCROLL_MIN_VELOCITY, abs_of_nonneg, abs_of_nonpos])
  have f6 : scrollFrame ⟨0, (-24137569/3200000)⟩ = ([(0, (-7))], ⟨0, (-410338673/64000000)⟩) :=
    scrollFrame_eval 0 (-24137569/3200000) 0 (-410338673/64000000) 0 (-410338673/64000000) 0 (-7) [(0, (-7))]
      (by norm_num [truncQ, Int.floor_eq_iff, Int.ceil_eq_iff])
      (by norm_num [truncQ, Int.floor_eq_iff, Int.ceil_eq_iff])
      (by norm_num)
      (by norm_num [SCROLL_DECELERATION])
      (by norm_num [SCROLL_DECELERATION])
      (by norm_num [SCROLL_MIN_VELOCITY, abs_of_nonneg, abs_of_nonpos])
      (by norm_num [SCROLL_MIN_VELOCITY, abs_of_nonneg, abs_of_nonpos])
  have f7 : scrollFrame ⟨0, (-410338673/64000000)⟩ = ([(0, (-6))], ⟨0, (-6975757441/1280000000)⟩) :=
    scrollFrame_eval 0 (-410338673/64000000) 0 (-6975757441/1280000000) 0 (-6975757441/1280000000) 0 (-6) [(0, (-6))]
      (by norm_num [truncQ, Int.floor_eq_iff, Int.ceil_eq_iff])
      (by norm_num [truncQ, Int.floor_eq_iff, Int.ceil_eq_iff])
      (by norm_num)
      (by norm_num [SCROLL_DECELERATION])
      (by norm_num [SCROLL_DECELERATION])
      (by norm_num [SCROLL_MIN_VELOCITY, abs_of_nonneg, abs_of_nonpos])
      (by norm_num [SCROLL_MIN_VELOCITY, abs_of_nonneg, abs_of_nonpos])
  have f8 : scrollFrame ⟨0, (-6975757441/1280000000)⟩ = ([(0, (-5))], ⟨0, (-118587876497/25600000000)⟩) :=
    scrollFrame_eval 0 (-6975757441/1280000000) 0 (-118587876497/25600000000) 0 (-118587876497/25600000000) 0 (-5) [(0, (-5))]
      (by norm_num [truncQ, Int.floor_eq_iff, Int.ceil_eq_iff])
      (by norm_num [truncQ, Int.floor_eq_iff, Int.ceil_eq_iff])
      (by norm_num)
      (by norm_num [SCROLL_DECELERATION])
      (by norm_num [SCROLL_DECELERATION])
      (by norm_num [SCROLL_MIN_VELOCITY, abs_of_nonneg, abs_of_nonpos])
      (by norm_num [SCROLL_MIN_VELOCITY, abs_of_nonneg, abs_of_nonpos])
  have f9 : scrollFrame ⟨0, (-118587876497/25600000000)⟩ = ([(0, (-4))], ⟨0, (-2015993900449/512000000000)⟩) :=
    scrollFrame_eval 0 (-118587876497/25600000000) 0 (-2015993900449/512000000000) 0 (-2015993900449/512000000000) 0 (-4) [(0, (-4))]
      (by norm_num [truncQ, Int.floor_eq_iff, Int.ceil_eq_iff])
      (by norm_num [truncQ, Int.floor_eq_iff, Int.ceil_eq_iff])
      (by norm_num)
      (by norm_num [SCROLL_DECELERATION])
      (by norm_num [SCROLL_DECELERATION])
      (by norm_num [SCROLL_MIN_VELOCITY, abs_of_nonneg, abs_of_nonpos])
      (by norm_num [SCROLL_MIN_VELOCITY, abs_of_nonneg, abs_of_nonpos])
  have f10 : scrollFrame ⟨0, (-2015993900449/512000000000)⟩ = ([(0, (-3))], ⟨0, (-34271896307633/10240000000000)⟩) :=
    scrollFrame_eval 0 (-2015993900449/512000000000) 0 (-34271896307633/10240000000000) 0 (-34271896307633/10240000000000) 0 (-3) [(0, (-3))]
      (by norm_num [truncQ, Int.floor_eq_iff, Int.ceil_eq_iff])
      (by norm_num [truncQ, Int.floor_eq_iff, Int.ceil_eq_iff])
      (by norm_num)
      (by norm_num [SCROLL_DECELERATION])
      (by norm_num [SCROLL_DECELERATION])
      (by norm_num [SCROLL_MIN_VELOCITY, abs_of_nonneg, abs_of_nonpos])
      (by norm_num [SCROLL_MIN_VELOCITY, abs_of_nonneg, abs_of_nonpos])
  have f11 : scrollFrame ⟨0, (-34271896307633/10240000000000)⟩ = ([(0, (-3))], ⟨0, (-582622237229761/204800000000000)⟩) :=
    scrollFrame_eval 0 (-34271896307633/10240000000000) 0 (-582622237229761/204800000000000) 0 (-582622237229761/204800000000000) 0 (-3) [(0, (-3))]
      (by norm_num [truncQ, Int.floor_eq_iff, Int.ceil_eq_iff])
      (by norm_num [truncQ, Int.floor_eq_iff, Int.ceil_eq_iff])
      (by norm_num)
      (by norm_num [SCROLL_DECELERATION])
      (by norm_num [SCROLL_DECELERATION])
      (by norm_num [SCROLL_MIN_VELOCITY, abs_of_nonneg, abs_of_nonpos])
      (by norm_num [SCROLL_MIN_VELOCITY, abs_of_nonneg, abs_of_nonpos])
  have f12 : scrollFrame ⟨0, (-582622237229761/204800000000000)⟩ = ([(0, (-2))], ⟨0, (-9904578032905937/4096000000000000)⟩) :=
    scrollFrame_eval 0 (-582622237229761/204800000000000) 0 (-9904578032905937/4096000000000000) 0 (-9904578032905937/4096000000000000) 0 (-2) [(0, (-2))]
      (by norm_num [truncQ, Int.floor_eq_iff, Int.ceil_eq_iff])
      (by norm_num [truncQ, Int.floor_eq_iff, Int.ceil_eq_iff])
      (by norm_num)
      (by norm_num [SCROLL_DECELERATION])
      (by norm_num [SCROLL_DECELERATION])
      (by norm_num [SCROLL_MIN_VELOCITY, abs_of_nonneg, abs_of_nonpos])
      (by norm_num [SCROLL_MIN_VELOCITY, abs_of_nonneg, abs_of_nonpos])
  have f13 : scrollFrame ⟨0, (-9904578032905937/4096000000000000)⟩ = ([(0, (-2))], ⟨0, (-168377826559400929/81920000000000000)⟩) :=
    scrollFrame_eval 0 (-9904578032905937/4096000000000000) 0 (-168377826559400929/81920000000000000) 0 (-168377826559400929/81920000000000000) 0 (-2) [(0, (-2))]
      (by norm_num [truncQ, Int.floor_eq_iff, Int.ceil_eq_iff])
      (by norm_num [truncQ, Int.floor_eq_iff, Int.ceil_eq_iff])
      (by norm_num)
      (by norm_num [SCROLL_DECELERATION])
      (by norm_num [SCROLL_DECELERATION])
      (by norm_num [SCROLL_MIN_VELOCITY, abs_of_nonneg, abs_of_nonpos])
      (by norm_num [SCROLL_MIN_VELOCITY, abs_of_nonneg, abs_of_nonpos])
  have f14 : scrollFrame ⟨0, (-168377826559400929/81920000000000000)⟩ = ([(0, (-2))], ⟨0, (-2862423051509815793/1638400000000000000)⟩) :=
    scrollFrame_eval 0 (-168377826559400929/81920000000000000) 0 (-2862423051509815793/1638400000000000000) 0 (-2862423051509815793/1638400000000000000) 0 (-2) [(0, (-2))]
      (by norm_num [truncQ, Int.floor_eq_iff, Int.ceil_eq_iff])
      (by norm_num [truncQ, Int.floor_eq_iff, Int.ceil_eq_iff])
      (by norm_num)
      (by norm_num [SCROLL_DECELERATION])
      (by norm_num [SCROLL_DECELERATION])
      (by norm_num [SCROLL_MIN_VELOCITY, abs_of_nonneg, abs_of_nonpos])
      (by norm_num [SCROLL_MIN_VELOCITY, abs_of_nonneg, abs_of_nonpos])
  have f15 : scrollFrame ⟨0, (-2862423051509815793/1638400000000000000)⟩ = ([(0, (-1))], ⟨0, (-48661191875666868481/32768000000000000000)⟩) :=
    scrollFrame_eval 0 (-2862423051509815793/1638400000000000000) 0 (-48661191875666868481/32768000000000000000) 0 (-48661191875666868481/32768000000000000000) 0 (-1) [(0, (-1))]
      (by norm_num [truncQ, Int.floor_eq_iff, Int.ceil_eq_iff])
      (by norm_num [truncQ, Int.floor_eq_iff, Int.ceil_eq_iff])
      (by norm_num)
      (by norm_num [SCROLL_DECELERATION])
      (by norm_num [SCROLL_DECELERATION])
      (by norm_num [SCROLL_MIN_VELOCITY, abs_of_nonneg, abs_of_nonpos])
      (by norm_num [SCROLL_MIN_VELOCITY, abs_of_nonneg, abs_of_nonpos])
  have f16 : scrollFrame ⟨0, (-48661191875666868481/32768000000000000000)⟩ = ([(0, (-1))], ⟨0, (-827240261886336764177/655360000000000000000)⟩) :=
    scrollFrame_eval 0 (-48661191875666868481/32768000000000000000) 0 (-827240261886336764177/655360000000000000000) 0 (-827240261886336764177/655360000000000000000) 0 (-1) [(0, (-1))]
      (by norm_num [truncQ, Int.floor_eq_iff, Int.ceil_eq_iff])
      (by norm_num [truncQ, Int.floor_eq_iff, Int.ceil_eq_iff])
      (by norm_num)
      (by norm_num [SCROLL_DECELERATION])
      (by norm_num [SCROLL_DECELERATION])
      (by norm_num [SCROLL_MIN_VELOCITY, abs_of_nonneg, abs_of_nonpos])
      (by norm_num [SCROLL_MIN_VELOCITY, abs_of_nonneg, abs_of_nonpos])
  have f17 : scrollFrame ⟨0, (-827240261886336764177/655360000000000000000)⟩ = ([(0, (-1))], ⟨0, (-14063084452067724991009/13107200000000000000000)⟩) :=
    scrollFrame_eval 0 (-827240261886336764177/655360000000000000000) 0 (-14063084452067724991009/13107200000000000000000) 0 (-14063084452067724991009/13107200000000000000000) 0 (-1) [(0, (-1))]
      (by norm_num [truncQ, Int.floor_eq_iff, Int.ceil_eq_iff])
      (by norm_num [truncQ, Int.floor_eq_iff, Int.ceil_eq_iff])
      (by norm_num)
      (by norm_num [SCROLL_DECELERATION])
      (by norm_num [SCROLL_DECELERATION])
      (by norm_num [SCROLL_MIN_VELOCITY, abs_of_nonneg, abs_of_nonpos])
      (by norm_num [SCROLL_MIN_VELOCITY, abs_of_nonneg, abs_of_nonpos])
  have f18 : scrollFrame ⟨0, (-14063084452067724991009/13107200000000000000000)⟩ = ([(0, (-1))], ⟨0, (-239072435685151324847153/262144000000000000000000)⟩) :=
    scrollFrame_eval 0 (-14063084452067724991009/13107200000000000000000) 0 (-239072435685151324847153/262144000000000000000000) 0 (-239072435685151324847153/262144000000000000000000) 0 (-1) [(0, (-1))]
      (by norm_num [truncQ, Int.floor_eq_iff, Int.ceil_eq_iff])
      (by norm_num [truncQ, Int.floor_eq_iff, Int.ceil_eq_iff])
      (by norm_num)
      (by norm_num [SCROLL_DECELERATION])
      (by norm_num [SCROLL_DECELERATION])
      (by norm_num [SCROLL_MIN_VELOCITY, abs_of_nonneg, abs_of_nonpos])
      (by norm_num [SCROLL_MIN_VELOCITY, abs_of_nonneg, abs_of_nonpos])
  have f19 : scrollFrame ⟨0, (-239072435685151324847153/262144000000000000000000)⟩ = ([], ⟨0, (-4064231406647572522401601/5242880000000000000000000)⟩) :=
    scrollFrame_eval 0 (-239072435685151324847153/262144000000000000000000) 0 (-4064231406647572522401601/5242880000000000000000000) 0 (-4064231406647572522401601/5242880000000000000000000) 0 0 []
      (by norm_num [truncQ, Int.floor_eq_iff, Int.ceil_eq_iff])
      (by norm_num [truncQ, Int.floor_eq_iff, Int.ceil_eq_iff])
      (by norm_num)
      (by norm_num [SCROLL_DECELERATION])
      (by norm_num [SCROLL_DECELERATION])
      (by norm_num [SCROLL_MIN_VELOCITY, abs_of_nonneg, abs_of_nonpos])
      (by norm_num [SCROLL_MIN_VELOCITY, abs_of_nonneg, abs_of_nonpos])
  have f20 : scrollFrame ⟨0, (-4064231406647572522401601/5242880000000000000000000)⟩ = ([], ⟨0, (-69091933913008732880827217/104857600000000000000000000)⟩) :=
    scrollFrame_eval 0 (-4064231406647572522401601/5242880000000000000000000) 0 (-69091933913008732880827217/104857600000000000000000000) 0 (-69091933913008732880827217/104857600000000000000000000) 0 0 []
      (by norm_num [truncQ, Int.floor_eq_iff, Int.ceil_eq_iff])
      (by norm_num [truncQ, Int.floor_eq_iff, Int.ceil_eq_iff])
      (by norm_num)
      (by norm_num [SCROLL_DECELERATION])
      (by norm_num [SCROLL_DECELERATION])
      (by norm_num [SCROLL_MIN_VELOCITY, abs_of_nonneg, abs_of_nonpos])
      (by norm_num [SCROLL_MIN_VELOCITY, abs_of_nonneg, abs_of_nonpos])
  have f21 : scrollFrame ⟨0, (-69091933913008732880827217/104857600000000000000000000)⟩ = ([], ⟨0, (-1174562876521148458974062689/2097152000000000000000000000)⟩) :=
    scrollFrame_eval 0 (-69091933913008732880827217/104857600000000000000000000) 0 (-1174562876521148458974062689/2097152000000000000000000000) 0 (-1174562876521148458974062689/2097152000000000000000000000) 0 0 []
      (by norm_num [truncQ, Int.floor_eq_iff, Int.ceil_eq_iff])
      (by norm_num [truncQ, Int.floor_eq_iff, Int.ceil_eq_iff])
      (by norm_num)
      (by norm_num [SCROLL_DECELERATION])
      (by norm_num [SCROLL_DECELERATION])
      (by norm_num [SCROLL_MIN_VELOCITY, abs_of_nonneg, abs_of_nonpos])
      (by norm_num [SCROLL_MIN_VELOCITY, abs_of_nonneg, abs_of_nonpos])
  have f22 : scrollFrame ⟨0, (-1174562876521148458974062689/2097152000000000000000000000)⟩ = ([], ⟨0, 0⟩) :=
    scrollFrame_eval 0 (-1174562876521148458974062689/2097152000000000000000000000) 0 (-19967568900859523802559065713/41943040000000000000000000000) 0 0 0 0 []
      (by norm_num [truncQ, Int.floor_eq_iff, Int.ceil_eq_iff])
      (by norm_num [truncQ, Int.floor_eq_iff, Int.ceil_eq_iff])
      (by norm_num)
      (by norm_num [SCROLL_DECELERATION])
      (by norm_num [SCROLL_DECELERATION])
      (by norm_num [SCROLL_MIN_VELOCITY, abs_of_nonneg, abs_of_nonpos])
      (by norm_num [SCROLL_MIN_VELOCITY, abs_of_nonneg, abs_of_nonpos])
  have g77 : scrollLoop 77 ⟨0, 0⟩ = ([], ⟨0, 0⟩, 0) :=
    scrollLoop_halt 77 0 0 (by norm_num [SCROLL_MIN_VELOCITY])
      (by norm_num [SCROLL_MIN_VELOCITY])
  have g78 : scrollLoop 78 ⟨0, (-1174562876521148458974062689/2097152000000000000000000000)⟩ = ([], ⟨0, 0⟩, 1) := by
    rw [scrollLoop_step 78 77 0 (-1174562876521148458974062689/2097152000000000000000000000) 0 0 []
      (by norm_num)
      (by norm_num [SCROLL_MIN_VELOCITY, abs_of_nonneg, abs_of_nonpos]) f22, g77]
    simp
  have g79 : scrollLoop 79 ⟨0, (-69091933913008732880827217/104857600000000000000000000)⟩ = ([], ⟨0, 0⟩, 2) := by
    rw [scrollLoop_step 79 78 0 (-69091933913008732880827217/104857600000000000000000000) 0 (-1174562876521148458974062689/2097152000000000000000000000) []
      (by norm_num)
      (by norm_num [SCROLL_MIN_VELOCITY, abs_of_nonneg, abs_of_nonpos]) f21, g78]
    simp
  have g80 : scrollLoop 80 ⟨0, (-4064231406647572522401601/5242880000000000000000000)⟩ = ([], ⟨0, 0⟩, 3) := by
    rw [scrollLoop_step 80 79 0 (-4064231406647572522401601/5242880000000000000000000) 0 (-69091933913008732880827217/104857600000000000000000000) []
      (by norm_num)
      (by norm_num [SCROLL_MIN_VELOCITY, abs_of_nonneg, abs_of_nonpos]) f20, g79]
    simp
  have g81 : scrollLoop 81 ⟨0, (-239072435685151324847153/262144000000000000000000)⟩ = ([], ⟨0, 0⟩, 4) := by
    rw [scrollLoop_step 81 80 0 (-239072435685151324847153/262144000000000000000000) 0 (-4064231406647572522401601/5242880000000000000000000) []
      (by norm_num)
      (by norm_num [SCROLL_MIN_VELOCITY, abs_of_nonneg, abs_of_nonpos]) f19, g80]
    simp
  have g82 : scrollLoop 82 ⟨0, (-14063084452067724991009/13107200000000000000000)⟩ = ([(0, (-1))], ⟨0, 0⟩, 5) := by
    rw [scrollLoop_step 82 81 0 (-14063084452067724991009/13107200000000000000000) 0 (-239072435685151324847153/262144000000000000000000) [(0, (-1))]
      (by norm_num)
      (by norm_num [SCROLL_MIN_VELOCITY, abs_of_nonneg, abs_of_nonpos]) f18, g81]
    simp
  have g83 : scrollLoop 83 ⟨0, (-827240261886336764177/655360000000000000000)⟩ = ([(0, (-1)), (0, (-1))], ⟨0, 0⟩, 6) := by
    rw [scrollLoop_step 83 82 0 (-827240261886336764177/655360000000000000000) 0 (-14063084452067724991009/13107200000000000000000) [(0, (-1))]
      (by norm_num)
      (by norm_num [SCROLL_MIN_VELOCITY, abs_of_nonneg, abs_of_nonpos]) f17, g82]
    simp
  have g84 : scrollLoop 84 ⟨0, (-48661191875666868481/32768000000000000000)⟩ = ([(0, (-1)), (0, (-1)), (0, (-1))], ⟨0, 0⟩, 7) := by
    rw [scrollLoop_step 84 83 0 (-48661191875666868481/32768000000000000000) 0 (-827240261886336764177/655360000000000000000) [(0, (-1))]
      (by norm_num)
      (by norm_num [SCROLL_MIN_VELOCITY, abs_of_nonneg, abs_of_nonpos]) f16, g83]
    simp
  have g85 : scrollLoop 85 ⟨0, (-2862423051509815793/1638400000000000000)⟩ = ([(0, (-1)), (0, (-1)), (0, (-1)), (0, (-1))], ⟨0, 0⟩, 8) := by
    rw [scrollLoop_step 85 84 0 (-2862423051509815793/1638400000000000000) 0 (-48661191875666868481/32768000000000000000) [(0, (-1))]
      (by norm_num)
      (by norm_num [SCROLL_MIN_VELOCITY, abs_of_nonneg, abs_of_nonpos]) f15, g84]
    simp
  have g86 : scrollLoop 86 ⟨0, (-168377826559400929/81920000000000000)⟩ = ([(0, (-2)), (0, (-1)), (0, (-1)), (0, (-1)), (0, (-1))], ⟨0, 0⟩, 9) := by
    rw [scrollLoop_step 86 85 0 (-168377826559400929/81920000000000000) 0 (-2862423051509815793/1638400000000000000) [(0, (-2))]
      (by norm_num)
      (by norm_num [SCROLL_MIN_VELOCITY, abs_of_nonneg, abs_of_nonpos]) f14, g85]
    simp
  have g87 : scrollLoop 87 ⟨0, (-9904578032905937/4096000000000000)⟩ = ([(0, (-2)), (0, (-2)), (0, (-1)), (0, (-1)), (0, (-1)), (0, (-1))], ⟨0, 0⟩, 10) := by
    rw [scrollLoop_step 87 86 0 (-9904578032905937/4096000000000000) 0 (-168377826559400929/81920000000000000) [(0, (-2))]
      (by norm_num)
      (by norm_num [SCROLL_MIN_VELOCITY, abs_of_nonneg, abs_of_nonpos]) f13, g86]
    simp
  have g88 : scrollLoop 88 ⟨0, (-582622237229761/204800000000000)⟩ = ([(0, (-2)), (0, (-2)), (0, (-2)), (0, (-1)), (0, (-1)), (0, (-1)), (0, (-1))], ⟨0, 0⟩, 11) := by
    rw [scrollLoop_step 88 87 0 (-582622237229761/204800000000000) 0 (-9904578032905937/4096000000000000) [(0, (-2))]
      (by norm_num)
      (by norm_num [SCROLL_MIN_VELOCITY, abs_of_nonneg, abs_of_nonpos]) f12, g87]
    simp
  have g89 : scrollLoop 89 ⟨0, (-34271896307633/10240000000000)⟩ = ([(0, (-3)), (0, (-2)), (0, (-2)), (0, (-2)), (0, (-1)), (0, (-1)), (0, (-1)), (0, (-1))], ⟨0, 0⟩, 12) := by
    rw [scrollLoop_step 89 88 0 (-34271896307633/10240000000000) 0 (-582622237229761/204800000000000) [(0, (-3))]
      (by norm_num)
      (by norm_num [SCROLL_MIN_VELOCITY, abs_of_nonneg, abs_of_nonpos]) f11, g88]
    simp
  have g90 : scrollLoop 90 ⟨0, (-2015993900449/512000000000)⟩ = ([(0, (-3)), (0, (-3)), (0, (-2)), (0, (-2)), (0, (-2)), (0, (-1)), (0, (-1)), (0, (-1)), (0, (-1))], ⟨0, 0⟩, 13) := by
    rw [scrollLoop_step 90 89 0 (-2015993900449/512000000000) 0 (-34271896307633/10240000000000) [(0, (-3))]
      (by norm_num)
      (by norm_num [SCROLL_MIN_VELOCITY, abs_of_nonneg, abs_of_nonpos]) f10, g89]
    simp
  have g91 : scrollLoop 91 ⟨0, (-118587876497/25600000000)⟩ = ([(0, (-4)), (0, (-3)), (0, (-3)), (0, (-2)), (0, (-2)), (0, (-2)), (0, (-1)), (0, (-1)), (0, (-1)), (0, (-1))], ⟨0, 0⟩, 14) := by
    rw [scrollLoop_step 91 90 0 (-118587876497/25600000000) 0 (-2015993900449/512000000000) [(0, (-4))]
      (by norm_num)
      (by norm_num [SCROLL_MIN_VELOCITY, abs_of_nonneg, abs_of_nonpos]) f9, g90]
    simp
  have g92 : scrollLoop 92 ⟨0, (-6975757441/1280000000)⟩ = ([(0, (-5)), (0, (-4)), (0, (-3)), (0, (-3)), (0, (-2)), (0, (-2)), (0, (-2)), (0, (-1)), (0, (-1)), (0, (-1)), (0, (-1))], ⟨0, 0⟩, 15) := by
    rw [scrollLoop_step 92 91 0 (-6975757441/1280000000) 0 (-118587876497/25600000000) [(0, (-5))]
      (by norm_num)
      (by norm_num [SCROLL_MIN_VELOCITY, abs_of_nonneg, abs_of_nonpos]) f8, g91]
    simp
  have g93 : scrollLoop 93 ⟨0, (-410338673/64000000)⟩ = ([(0, (-6)), (0, (-5)), (0, (-4)), (0, (-3)), (0, (-3)), (0, (-2)), (0, (-2)), (0, (-2)), (0, (-1)), (0, (-1)), (0, (-1)), (0, (-1))], ⟨0, 0⟩, 16) := by
    rw [scrollLoop_step 93 92 0 (-410338673/64000000) 0 (-6975757441/1280000000) [(0, (-6))]
      (by norm_num)
      (by norm_num [SCROLL_MIN_VELOCITY, abs_of_nonneg, abs_of_nonpos]) f7, g92]
    simp
  have g94 : scrollLoop 94 ⟨0, (-24137569/3200000)⟩ = ([(0, (-7)), (0, (-6)), (0, (-5)), (0, (-4)), (0, (-3)), (0, (-3)), (0, (-2)), (0, (-2)), (0, (-2)), (0, (-1)), (0, (-1)), (0, (-1)), (0, (-1))], ⟨0, 0⟩, 17) := by
    rw [scrollLoop_step 94 93 0 (-24137569/3200000) 0 (-410338673/64000000) [(0, (-7))]
      (by norm_num)
      (by norm_num [SCROLL_MIN_VELOCITY, abs_of_nonneg, abs_of_nonpos]) f6, g93]
    simp
  have g95 : scrollLoop 95 ⟨0, (-1419857/160000)⟩ = ([(0, (-8)), (0, (-7)), (0, (-6)), (0, (-5)), (0, (-4)), (0, (-3)), (0, (-3)), (0, (-2)), (0, (-2)), (0, (-2)), (0, (-1)), (0, (-1)), (0, (-1)), (0, (-1))], ⟨0, 0⟩, 18) := by
    rw [scrollLoop_step 95 94 0 (-1419857/160000) 0 (-24137569/3200000) [(0, (-8))]
      (by norm_num)
      (by norm_num [SCROLL_MIN_VELOCITY, abs_of_nonneg, abs_of_nonpos]) f5, g94]
    simp
  have g96 : scrollLoop 96 ⟨0, (-83521/8000)⟩ = ([(0, (-10)), (0, (-8)), (0, (-7)), (0, (-6)), (0, (-5)), (0, (-4)), (0, (-3)), (0, (-3)), (0, (-2)), (0, (-2)), (0, (-2)), (0, (-1)), (0, (-1)), (0, (-1)), (0, (-1))], ⟨0, 0⟩, 19) := by
    rw [scrollLoop_step 96 95 0 (-83521/8000) 0 (-1419857/160000) [(0, (-10))]
      (by norm_num)
      (by norm_num [SCROLL_MIN_VELOCITY, abs_of_nonneg, abs_of_nonpos]) f4, g95]
    simp
  have g97 : scrollLoop 97 ⟨0, (-4913/400)⟩ = ([(0, (-12)), (0, (-10)), (0, (-8)), (0, (-7)), (0, (-6)), (0, (-5)), (0, (-4)), (0, (-3)), (0, (-3)), (0, (-2)), (0, (-2)), (0, (-2)), (0, (-1)), (0, (-1)), (0, (-1)), (0, (-1))], ⟨0, 0⟩, 20) := by
    rw [scrollLoop_step 97 96 0 (-4913/400) 0 (-83521/8000) [(0, (-12))]
      (by norm_num)
      (by norm_num [SCROLL_MIN_VELOCITY, abs_of_nonneg, abs_of_nonpos]) f3, g96]
    simp
  have g98 : scrollLoop 98 ⟨0, (-289/20)⟩ = ([(0, (-14)), (0, (-12)), (0, (-10)), (0, (-8)), (0, (-7)), (0, (-6)), (0, (-5)), (0, (-4)), (0, (-3)), (0, (-3)), (0, (-2)), (0, (-2)), (0, (-2)), (0, (-1)), (0, (-1)), (0, (-1)), (0, (-1))], ⟨0, 0⟩, 21) := by
    rw [scrollLoop_step 98 97 0 (-289/20) 0 (-4913/400) [(0, (-14))]
      (by norm_num)
      (by norm_num [SCROLL_MIN_VELOCITY, abs_of_nonneg, abs_of_nonpos]) f2, g97]
    simp
  have g99 : scrollLoop 99 ⟨0, (-17)⟩ = ([(0, (-17)), (0, (-14)), (0, (-12)), (0, (-10)), (0, (-8)), (0, (-7)), (0, (-6)), (0, (-5)), (0, (-4)), (0, (-3)), (0, (-3)), (0, (-2)), (0, (-2)), (0, (-2)), (0, (-1)), (0, (-1)), (0, (-1)), (0, (-1))], ⟨0, 0⟩, 22) := by
    rw [scrollLoop_step 99 98 0 (-17) 0 (-289/20) [(0, (-17))]
      (by norm_num)
      (by norm_num [SCROLL_MIN_VELOCITY, abs_of_nonneg, abs_of_nonpos]) f1, g98]
    simp
  have g100 : scrollLoop 100 ⟨0, (-20)⟩ = ([(0, (-20)), (0, (-17)), (0, (-14)), (0, (-12)), (0, (-10)), (0, (-8)), (0, (-7)), (0, (-6)), (0, (-5)), (0, (-4)), (0, (-3)), (0, (-3)), (0, (-2)), (0, (-2)), (0, (-2)), (0, (-1)), (0, (-1)), (0, (-1)), (0, (-1))], ⟨0, 0⟩, 23) := by
    rw [scrollLoop_step 100 99 0 (-20) 0 (-17) [(0, (-20))]
      (by norm_num)
      (by norm_num [SCROLL_MIN_VELOCITY, abs_of_nonneg, abs_of_nonpos]) f0, g99]
    simp
  exact g100


/-! Helper lemmas for the speed invariant. -/

lemma callback_speed_cases (s : EngineState) (e : EventType) :
    (callback s e).1.mouseSpeed = s.mouseSpeed ∨
    (callback s e).1.mouseSpeed = SLOW_SPEED ∨
    (callback s e).1.mouseSpeed = FAST_SPEED ∨
    (callback s e).1.mouseSpeed = ULTRA_FAST_SPEED := by
  cases e with
  | MouseMove x y => exact Or.inl rfl
  | KeyPress k =>
    cases k <;> cases hG : s.gKeyHeld <;>
      simp [callback, hG, MOVEMENT_MAP, SCREEN_CELL_MAP]
  | KeyRelease k => cases k <;> simp [callback]
  | ButtonPress b => exact Or.inl rfl
  | ButtonRelease b => exact Or.inl rfl
  | Wheel dx dy => exact Or.inl rfl
  | OtherEvent => exact Or.inl rfl

lemma processEvents_speed (s : EngineState)
    (hs : s.mouseSpeed = SLOW_SPEED ∨ s.mouseSpeed = FAST_SPEED ∨
          s.mouseSpeed = ULTRA_FAST_SPEED) (es : List EventType) :
    (processEvents s es).mouseSpeed = SLOW_SPEED ∨
    (processEvents s es).mouseSpeed = FAST_SPEED ∨
    (processEvents s es).mouseSpeed = ULTRA_FAST_SPEED := by
  induction es generalizing s with
  | nil => exact hs
  | cons e es ih =>
    simp only [processEvents]
    apply ih
    rcases callback_speed_cases s e with h | h | h | h
    · rw [h]; exact hs
    · rw [h]; exact Or.inl rfl
    · rw [h]; exact Or.inr (Or.inl rfl)
    · rw [h]; exact Or.inr (Or.inr rfl)

lemma callback_speed_unchanged (s : EngineState) (e : EventType)
    (he : isSpeedEvent e = false) :
    (callback s e).1.mouseSpeed = s.mouseSpeed := by
  cases e with
  | MouseMove x y => rfl
  | KeyPress k =>
    cases k <;> simp [isSpeedEvent] at he <;>
      cases hG : s.gKeyHeld <;> simp [callback, hG, MOVEMENT_MAP, SCREEN_CELL_MAP]
  | KeyRelease k =>
    cases k <;> simp [isSpeedEvent] at he <;> simp [callback]
  | ButtonPress b => rfl
  | ButtonRelease b => rfl
  | Wheel dx dy => rfl
  | OtherEvent => rfl

/-- Claim C3 counterexample: at startup MOUSE_SPEED is 40, not 150. -/
theorem C3_counterexample :
    initialState.mouseSpeed = 40 ∧ initialState.mouseSpeed ≠ 150 := by
  constructor
  · rfl
  · norm_num [initialState, FAST_SPEED]

/-- Claim C3 (corrected): at startup, before any modifier key press, the
speed scalar is FAST_SPEED = 40, the middle of the three levels
{SLOW_SPEED = 5, FAST_SPEED = 40, ULTRA_FAST_SPEED = 150}; 150 is the
ULTRA_FAST level reached only via the fast modifier. -/
theorem C3_startup_speed :
    initialState.mouseSpeed = FAST_SPEED ∧
    SLOW_SPEED = 5 ∧ FAST_SPEED = 40 ∧ ULTRA_FAST_SPEED = 150 :=
  ⟨rfl, rfl, rfl, rfl⟩

/-- Claim C6 (confirmed): in scroll mode, each of the four cardinal keys
spawns one animator with a unit vector on its axis, each diagonal key
spawns nothing and changes no state, and every one of the eight key
presses is suppressed. -/
theorem C6_scroll_mode (s : EngineState) (h : s.gKeyHeld = true) :
    callback s (.KeyPress .KeyH) = (s, [.smoothScroll (-1) 0], none) ∧
    callback s (.KeyPress .KeyL) = (s, [.smoothScroll 1 0], none) ∧
    callback s (.KeyPress .KeyJ) = (s, [.smoothScroll 0 (-1)], none) ∧
    callback s (.KeyPress .KeyK) = (s, [.smoothScroll 0 1], none) ∧
    callback s (.KeyPress .KeyY) = (s, [], none) ∧
    callback s (.KeyPress .KeyU) = (s, [], none) ∧
    callback s (.KeyPress .KeyB) = (s, [], none) ∧
    callback s (.KeyPress .KeyN) = (s, [], none) := by
  simp [callback, h]

/-- Witness for C6 at a concrete scroll-mode state. -/
theorem C6_scroll_mode_witness :
    callback scrollModeState (.KeyPress .KeyH) =
      (scrollModeState, [.smoothScroll (-1) 0], none) ∧
    callback scrollModeState (.KeyPress .KeyL) =
      (scrollModeState, [.smoothScroll 1 0], none) ∧
    callback scrollModeState (.KeyPress .KeyJ) =
      (scrollModeState, [.smoothScroll 0 (-1)], none) ∧
    callback scrollModeState (.KeyPress .KeyK) =
      (scrollModeState, [.smoothScroll 0 1], none) ∧
    callback scrollModeState (.KeyPress .KeyY) = (scrollModeState, [], none) ∧
    callback scrollModeState (.KeyPress .KeyU) = (scrollModeState, [], none) ∧
    callback scrollModeState (.KeyPress .KeyB) = (scrollModeState, [], none) ∧
    callback scrollModeState (.KeyPress .KeyN) = (scrollModeState, [], none) :=
  C6_scroll_mode scrollModeState rfl

/-- Claim C7 (confirmed): pressing the toggle key T twice restores the
whole engine state, and releasing the hold key G forces pointer mode
from every prior state. -/
theorem C7_toggle_and_hold (s : EngineState) :
    (callback (callback s (.KeyPress .KeyT)).1 (.KeyPress .KeyT)).1 = s ∧
    (callback s (.KeyRelease .KeyG)).1.gKeyHeld = false := by
  constructor
  · simp [callback]
  · rfl

/-- Claim C8 (confirmed): a native pointer-move event always sets the
cursor estimate to its coordinates and passes through unchanged, with no
side effects and no change to speed, mode, or screen extent; repeating
the same event changes nothing further. -/
theorem C8_mouse_move (s : EngineState) (x y : ℚ) :
    callback s (.MouseMove x y) =
      ({ s with mousePosition := (x, y) }, [], some (.MouseMove x y)) ∧
    (callback s (.MouseMove x y)).1.mouseSpeed = s.mouseSpeed ∧
    (callback s (.MouseMove x y)).1.gKeyHeld = s.gKeyHeld ∧
    (callback s (.MouseMove x y)).1.screenWidth = s.screenWidth ∧
    (callback s (.MouseMove x y)).1.screenHeight = s.screenHeight ∧
    (callback (callback s (.MouseMove x y)).1 (.MouseMove x y)).1 =
      (callback s (.MouseMove x y)).1 :=
  ⟨rfl, rfl, rfl, rfl, rfl, rfl⟩

/-- Claim C9 (confirmed): in scroll mode the vertical axis is inverted
relative to the MOVEMENT_MAP vectors: J maps to (0, 1) but starts an
animator with velocity (0, -20), K maps to (0, -1) but starts (0, 20),
while H and L keep the sign of their vectors. -/
theorem C9_vertical_inversion (s : EngineState) (h : s.gKeyHeld = true) :
    MOVEMENT_MAP .KeyJ = some (0, 1) ∧
    (callback s (.KeyPress .KeyJ)).2.1 = [.smoothScroll 0 (-1)] ∧
    scrollInit 0 (-1) = ⟨0, -20⟩ ∧
    MOVEMENT_MAP .KeyK = some (0, -1) ∧
    (callback s (.KeyPress .KeyK)).2.1 = [.smoothScroll 0 1] ∧
    scrollInit 0 1 = ⟨0, 20⟩ ∧
    MOVEMENT_MAP .KeyH = some (-1, 0) ∧
    (callback s (.KeyPress .KeyH)).2.1 = [.smoothScroll (-1) 0] ∧
    scrollInit (-1) 0 = ⟨-20, 0⟩ ∧
    MOVEMENT_MAP .KeyL = some (1, 0) ∧
    (callback s (.KeyPress .KeyL)).2.1 = [.smoothScroll 1 0] ∧
    scrollInit 1 0 = ⟨20, 0⟩ := by
  norm_num [callback, h, MOVEMENT_MAP, scrollInit, SCROLL_INITIAL_VELOCITY]

/-- Witness for C9 at a concrete scroll-mode state. -/
theorem C9_vertical_inversion_witness :
    MOVEMENT_MAP .KeyJ = some (0, 1) ∧
    (callback scrollModeState (.KeyPress .KeyJ)).2.1 = [.smoothScroll 0 (-1)] ∧
    scrollInit 0 (-1) = ⟨0, -20⟩ ∧
    MOVEMENT_MAP .KeyK = some (0, -1) ∧
    (callback scrollModeState (.KeyPress .KeyK)).2.1 = [.smoothScroll 0 1] ∧
    scrollInit 0 1 = ⟨0, 20⟩ ∧
    MOVEMENT_MAP .KeyH = some (-1, 0) ∧
    (callback scrollModeState (.KeyPress .KeyH)).2.1 = [.smoothScroll (-1) 0] ∧
    scrollInit (-1) 0 = ⟨-20, 0⟩ ∧
    MOVEMENT_MAP .KeyL = some (1, 0) ∧
    (callback scrollModeState (.KeyPress .KeyL)).2.1 = [.smoothScroll 1 0] ∧
    scrollInit 1 0 = ⟨20, 0⟩ :=
  C9_vertical_inversion scrollModeState rfl

/-- Claim C10 (confirmed): the speed scalar starts at 40, each
slow-modifier press sets it to 5, each fast-modifier press sets it to
150, each release of either modifier resets it to 40, no other event
changes it, and after every finite event sequence it lies in
{5, 40, 150}. -/
theorem C10_speed_invariant :
    initialState.mouseSpeed = FAST_SPEED ∧
    FAST_SPEED = 40 ∧
    (∀ s : EngineState,
      (callback s (.KeyPress .ShiftLeft)).1.mouseSpeed = 5 ∧
      (callback s (.KeyPress .ShiftRight)).1.mouseSpeed = 5 ∧
      (callback s (.KeyPress .Alt)).1.mouseSpeed = 150 ∧
      (callback s (.KeyRelease .ShiftLeft)).1.mouseSpeed = 40 ∧
      (callback s (.KeyRelease .ShiftRight)).1.mouseSpeed = 40 ∧
      (callback s (.KeyRelease .Alt)).1.mouseSpeed = 40) ∧
    (∀ (s : EngineState) (e : EventType), isSpeedEvent e = false →
      (callback s e).1.mouseSpeed = s.mouseSpeed) ∧
    (∀ es : List EventType,
      (processEvents initialState es).mouseSpeed = 5 ∨
      (processEvents initialState es).mouseSpeed = 40 ∨
      (processEvents initialState es).mouseSpeed = 150) := by
  refine ⟨rfl, rfl, fun s => ⟨rfl, rfl, rfl, rfl, rfl, rfl⟩,
    callback_speed_unchanged, fun es => ?_⟩
  have h := processEvents_speed initialState (Or.inr (Or.inl rfl)) es
  simpa [SLOW_SPEED, FAST_SPEED, ULTRA_FAST_SPEED] using h

/-- Witness for C10: a click key press leaves the speed unchanged. -/
theorem C10_speed_invariant_witness :
    (callback initialState (.KeyPress .Space)).1.mouseSpeed =
      initialState.mouseSpeed :=
  C10_speed_invariant.2.2.2.1 initialState (.KeyPress .Space) rfl



/-- Claim C1 counterexample: in pointer mode, pressing H from estimate
(100, 100) at speed 40 synthesizes a move to target (60, 100) and
suppresses the event, but the filter leaves the cursor estimate at
(100, 100) instead of updating it to the target. -/
theorem C1_counterexample :
    callback pointerState (.KeyPress .KeyH) =
      (pointerState, [.send (.MouseMove 60 100)], none) ∧
    (callback pointerState (.KeyPress .KeyH)).1.mousePosition = (100, 100) ∧
    ((100 : ℚ), (100 : ℚ)) ≠ ((60 : ℚ), (100 : ℚ)) := by
  refine ⟨?_, rfl, by norm_num⟩
  norm_num [callback, pointerState, MOVEMENT_MAP]

/-- Claim C1 (amended): for every direction key press in pointer mode,
the filter synthesizes one pointer move to
CursorEstimate + direction × speed and suppresses the original event,
but leaves the cursor estimate unchanged; the estimate becomes the
target only when the synthesized move is observed back as a native
pointer-move event. -/
theorem C1_pointer_move (s : EngineState) (key : Key) (d : ℚ × ℚ)
    (hmode : s.gKeyHeld = false) (hdir : MOVEMENT_MAP key = some d) :
    callback s (.KeyPress key) =
      (s, [.send (.MouseMove (s.mousePosition.1 + d.1 * s.mouseSpeed)
                             (s.mousePosition.2 + d.2 * s.mouseSpeed))], none) ∧
    (callback s (.MouseMove (s.mousePosition.1 + d.1 * s.mouseSpeed)
        (s.mousePosition.2 + d.2 * s.mouseSpeed))).1.mousePosition =
      (s.mousePosition.1 + d.1 * s.mouseSpeed,
       s.mousePosition.2 + d.2 * s.mouseSpeed) := by
  refine ⟨?_, rfl⟩
  cases key <;> simp_all [callback, MOVEMENT_MAP]

/-- Witness for C1 at a concrete pointer-mode state and the H key. -/
theorem C1_pointer_move_witness :
    callback pointerState (.KeyPress .KeyH) =
      (pointerState, [.send (.MouseMove 60 100)], none) ∧
    (callback pointerState (.MouseMove 60 100)).1.mousePosition = (60, 100) := by
  have h := C1_pointer_move pointerState .KeyH (-1, 0) rfl rfl
  norm_num [pointerState] at h ⊢
  exact h

/-- Claim C2 counterexample: with the 1200 by 900 screen, the key S
(cell (1, 1)) jumps to (450, 450), not (600, 450), and the key Q
(cell (0, 0)) jumps to (150, 150), not (200, 150): the grid of the code
has 4 columns and 3 rows, not 3 by 3. -/
theorem C2_counterexample :
    SCREEN_CELL_MAP .KeyS = some (1, 1) ∧
    callback gridState (.KeyPress .KeyS) =
      (gridState, [.send (.MouseMove 450 450)], none) ∧
    callback gridState (.KeyPress .KeyS) ≠
      (gridState, [.send (.MouseMove 600 450)], none) ∧
    SCREEN_CELL_MAP .KeyQ = some (0, 0) ∧
    callback gridState (.KeyPress .KeyQ) =
      (gridState, [.send (.MouseMove 150 150)], none) ∧
    callback gridState (.KeyPress .KeyQ) ≠
      (gridState, [.send (.MouseMove 200 150)], none) := by
  refine ⟨rfl, ?_, ?_, rfl, ?_, ?_⟩ <;>
    norm_num [callback, gridState, SCREEN_CELL_MAP]

/-- Claim C2 (amended): with ScreenExtent = (1200, 900) and the 4-column
by 3-row grid of the code, the key mapped to cell (1, 1) produces jump
target (450, 450) and the key mapped to cell (0, 0) produces (150, 150),
computed as cell_index × (extent / cell count) + half a cell on each
axis (width / 4 and height / 3 cells). -/
theorem C2_grid_jump :
    SCREEN_CELL_MAP .KeyS = some (1, 1) ∧
    callback gridState (.KeyPress .KeyS) =
      (gridState,
       [.send (.MouseMove (1 * 1200 / 4 + 1200 / 8) (1 * 900 / 3 + 900 / 6))],
       none) ∧
    (1 * (1200 : ℚ) / 4 + 1200 / 8 = 450) ∧
    (1 * (900 : ℚ) / 3 + 900 / 6 = 450) ∧
    SCREEN_CELL_MAP .KeyQ = some (0, 0) ∧
    callback gridState (.KeyPress .KeyQ) =
      (gridState,
       [.send (.MouseMove (0 * 1200 / 4 + 1200 / 8) (0 * 900 / 3 + 900 / 6))],
       none) ∧
    (0 * (1200 : ℚ) / 4 + 1200 / 8 = 150) ∧
    (0 * (900 : ℚ) / 3 + 900 / 6 = 150) := by
  refine ⟨rfl, ?_, by norm_num, by norm_num, rfl, ?_, by norm_num, by norm_num⟩ <;>
    norm_num [callback, gridState, SCREEN_CELL_MAP]

/-- Claim C4 counterexample: the animator run from unit direction (1, 0)
emits the delta magnitudes 20, 17, 14, 12, 10, 8, 7, 6, 5, 4, 3, 3, 2,
2, 2, 1, 1, 1, 1, which repeat and are therefore not strictly
decreasing from each emitted frame to the next. -/
theorem C4_counterexample :
    (send_smooth_scroll 1 0).1.map wheelMag =
      [20, 17, 14, 12, 10, 8, 7, 6, 5, 4, 3, 3, 2, 2, 2, 1, 1, 1, 1] ∧
    ¬ List.Chain' (fun a b => b < a) ((send_smooth_scroll 1 0).1.map wheelMag) := by
  have hinit : scrollInit 1 0 = ⟨20, 0⟩ := by
    norm_num [scrollInit, SCROLL_INITIAL_VELOCITY]
  unfold send_smooth_scroll
  rw [hinit, scrollRun_pos_x]
  constructor
  · decide
  · norm_num [wheelMag, List.chain'_cons, List.chain'_singleton,
      abs_of_nonneg, abs_of_nonpos]

/-- Claim C4 (amended): for every unit axis direction, the magnitudes of
the deltas the animator actually emits are non-increasing (weakly
decreasing) from each emitted frame to the next. -/
theorem C4_deltas_non_increasing :
    List.Chain' (fun a b => b ≤ a) ((send_smooth_scroll 1 0).1.map wheelMag) ∧
    List.Chain' (fun a b => b ≤ a) ((send_smooth_scroll (-1) 0).1.map wheelMag) ∧
    List.Chain' (fun a b => b ≤ a) ((send_smooth_scroll 0 1).1.map wheelMag) ∧
    List.Chain' (fun a b => b ≤ a) ((send_smooth_scroll 0 (-1)).1.map wheelMag) := by
  have h1 : scrollInit 1 0 = ⟨20, 0⟩ := by
    norm_num [scrollInit, SCROLL_INITIAL_VELOCITY]
  have h2 : scrollInit (-1) 0 = ⟨-20, 0⟩ := by
    norm_num [scrollInit, SCROLL_INITIAL_VELOCITY]
  have h3 : scrollInit 0 1 = ⟨0, 20⟩ := by
    norm_num [scrollInit, SCROLL_INITIAL_VELOCITY]
  have h4 : scrollInit 0 (-1) = ⟨0, -20⟩ := by
    norm_num [scrollInit, SCROLL_INITIAL_VELOCITY]
  unfold send_smooth_scroll
  rw [h1, h2, h3, h4, scrollRun_pos_x, scrollRun_neg_x, scrollRun_pos_y,
    scrollRun_neg_y]
  refine ⟨?_, ?_, ?_, ?_⟩ <;>
    norm_num [wheelMag, List.chain'_cons, List.chain'_singleton,
      abs_of_nonneg, abs_of_nonpos]

/-- Claim C5 (confirmed): for every unit axis direction, the animator
run from initial speed 20 with deceleration 0.85 and threshold 0.5 ends
with both velocity components snapped to exactly zero, and the loop
exits after exactly 23 iterations, within the stated bound of 23. -/
theorem C5_terminates :
    (send_smooth_scroll 1 0).2.1 = ⟨0, 0⟩ ∧ (send_smooth_scroll 1 0).2.2 ≤ 23 ∧
    (send_smooth_scroll (-1) 0).2.1 = ⟨0, 0⟩ ∧
    (send_smooth_scroll (-1) 0).2.2 ≤ 23 ∧
    (send_smooth_scroll 0 1).2.1 = ⟨0, 0⟩ ∧ (send_smooth_scroll 0 1).2.2 ≤ 23 ∧
    (send_smooth_scroll 0 (-1)).2.1 = ⟨0, 0⟩ ∧
    (send_smooth_scroll 0 (-1)).2.2 ≤ 23 := by
  have h1 : scrollInit 1 0 = ⟨20, 0⟩ := by
    norm_num [scrollInit, SCROLL_INITIAL_VELOCITY]
  have h2 : scrollInit (-1) 0 = ⟨-20, 0⟩ := by
    norm_num [scrollInit, SCROLL_INITIAL_VELOCITY]
  have h3 : scrollInit 0 1 = ⟨0, 20⟩ := by
    norm_num [scrollInit, SCROLL_INITIAL_VELOCITY]
  have h4 : scrollInit 0 (-1) = ⟨0, -20⟩ := by
    norm_num [scrollInit, SCROLL_INITIAL_VELOCITY]
  unfold send_smooth_scroll
  rw [h1, h2, h3, h4, scrollRun_pos_x, scrollRun_neg_x, scrollRun_pos_y,
    scrollRun_neg_y]
  norm_num


end Vimouse
